import Mathlib

/-!
Verification of the inschoolai-api message-routing and visibility subsystem.

This file gives a shallow embedding of the server's chat subsystem:

* `src/utils/helpers.js` — id generation and `formatMessage`;
* `src/models/message.js` — `saveMessage`, `getSessionMessages`,
  `getStudentRelevantMessages` (the student visibility filter);
* `src/models/student.js` — `saveStudent`, `getSessionStudents`, `findStudent`;
* `src/services/chat.js` — the in-memory caches (`chatCache`, `roomStudents`,
  `roomTeachers`) and their accessors;
* `src/services/socket.js` — the `join_room`, `send_message`, `leave_room`
  and `disconnect` handlers.

Modelling conventions:

* JavaScript strings that may be `undefined`/`null` are modelled as `String`
  with `""` standing for an absent value; this is observationally faithful
  here because every truthiness test (`x || y`, `if (x)`) treats `""`,
  `null` and `undefined` alike, and the only string fields the code ever
  compares are nonempty in every reachable flow.  Fields that the database
  genuinely stores as nullable (`sender_name`, `recipient`) are
  `Option String`.
* The SQLite tables are lists of rows in insertion order; `ORDER BY
  timestamp ASC` is a stable insertion sort by the byte-wise (code-point)
  order of the timestamp strings, matching SQLite's binary collation of
  TEXT columns.
* The socket layer is a state machine: `ServerState` holds the durable
  tables, the per-session caches and each socket's `userData`; handlers are
  pure functions returning the new state and the list of emitted events.
* Asynchronous storage calls are modelled as synchronous; storage failures
  are modelled separately (`getSessionMessagesT` etc.) where a claim is
  about them, since `getSessionMessages`/`getSessionStudents` catch their
  own errors and return `[]`.
-/

namespace InSchool

/-- JavaScript `a || b` for strings, where `""` is the only falsy string. -/
def jsOr (a b : String) : String := if a = "" then b else a

/-- JavaScript `s || null` for a string stored into a nullable column. -/
def jsStrOrNone (s : String) : Option String := if s = "" then none else some s

/-- JavaScript `o || null` for an already-nullable string value. -/
def jsOptOrNone (o : Option String) : Option String :=
  match o with
  | none => none
  | some s => jsStrOrNone s

/-- JS `toLowerCase()`, written over the character list so that it
evaluates in the kernel (ASCII lowering, as `Char.toLower` does). -/
def toLowerStr (s : String) : String := String.mk (s.data.map Char.toLower)

/-- JS `trim()`, written over the character list so that it evaluates in
the kernel: strip leading and trailing whitespace. -/
def trimStr (s : String) : String :=
  String.mk (((s.data.dropWhile Char.isWhitespace).reverse.dropWhile Char.isWhitespace).reverse)

/-- `generateStudentId` (src/utils/helpers.js): session id + normalized
username + a random 8-character suffix.  The random `uuidv4().substring(0,8)`
is passed in as `uuid`. -/
def generateStudentId (username sessionId uuid : String) : String :=
  sessionId ++ "_" ++ trimStr (toLowerStr username) ++ "_" ++ uuid

/-- `generateUniqueMessageId` (src/utils/helpers.js): `Date.now()` and a
random suffix, joined by an underscore; both halves are passed in. -/
def generateUniqueMessageId (nowMs uuid : String) : String :=
  nowMs ++ "_" ++ uuid

/-- Whether a message id contains an underscore
(`message.id.indexOf("_") === -1` is the negation). -/
def hasUnderscore (s : String) : Bool := s.data.contains '_'

/-- A message as handed to `saveMessage`/`addMessageToCache`: all fields the
JS object carries, with `""` for absent string fields and `Option` for the
genuinely nullable `recipient`. -/
structure MessageIn where
  id : String
  sessionId : String
  sender : String
  senderName : String
  text : String
  timestamp : String
  type : String
  role : String
  recipient : Option String
deriving DecidableEq, Repr

/-- A persisted row of the `messages` table. -/
structure MessageRow where
  id : String
  sessionId : String
  sender : String
  senderName : Option String
  text : String
  timestamp : String
  type : String
  role : String
  recipient : Option String
deriving DecidableEq, Repr

/-- The frontend-facing shape produced by the message queries and by
`addMessageToCache`: the row without its `session_id`. -/
structure MessageView where
  id : String
  sender : String
  senderName : Option String
  text : String
  timestamp : String
  type : String
  role : String
  recipient : Option String
deriving DecidableEq, Repr

/-- `saveMessage` (src/models/message.js): the row inserted into `messages`.
If the incoming id is falsy or has no underscore it is replaced by a fresh
`generateUniqueMessageId()`, passed in as `regen`; `type` defaults to
`"message"`, `role` to `"system"`, `sender_name` and `recipient` to NULL. -/
def saveMessageRow (regen : String) (m : MessageIn) : MessageRow :=
  { id := if m.id = "" ∨ hasUnderscore m.id = false then regen else m.id
    sessionId := m.sessionId
    sender := m.sender
    senderName := jsStrOrNone m.senderName
    text := m.text
    timestamp := m.timestamp
    type := jsOr m.type "message"
    role := jsOr m.role "system"
    recipient := jsOptOrNone m.recipient }

/-- Byte-wise (code-point) order on character lists: SQLite's binary
collation for TEXT. -/
def listLe : List Char → List Char → Bool
  | [], _ => true
  | _ :: _, [] => false
  | a :: as, b :: bs =>
    if a.toNat < b.toNat then true
    else if b.toNat < a.toNat then false
    else listLe as bs

/-- Timestamp comparison used by `ORDER BY timestamp ASC`. -/
def tsLe (a b : String) : Bool := listLe a.data b.data

/-- Stable insertion for the `ORDER BY timestamp ASC` sort: the new row goes
after every row whose timestamp is ≤ its own. -/
def insertByTs (m : MessageRow) : List MessageRow → List MessageRow
  | [] => [m]
  | x :: xs => if tsLe x.timestamp m.timestamp then x :: insertByTs m xs else m :: x :: xs

/-- `ORDER BY timestamp ASC` as a stable sort of the selected rows. -/
def sortByTs (l : List MessageRow) : List MessageRow :=
  l.foldl (fun acc m => insertByTs m acc) []

/-- The projection both message queries apply to each row (drop
`session_id`, rename `sender_name`). -/
def viewOf (r : MessageRow) : MessageView :=
  { id := r.id, sender := r.sender, senderName := r.senderName, text := r.text
    timestamp := r.timestamp, type := r.type, role := r.role, recipient := r.recipient }

/-- `getSessionMessages` (src/models/message.js): all rows of the session,
ordered by timestamp ascending, in frontend shape. -/
def getSessionMessages (sessionId : String) (db : List MessageRow) : List MessageView :=
  (sortByTs (db.filter (fun r => r.sessionId == sessionId))).map viewOf

/-- The WHERE-clause of `getStudentRelevantMessages` (src/models/message.js),
as a predicate on one row: global system notification, or sent by this
student, or a teacher message to this student or broadcast, or an AI message
to this student.  SQL `recipient IS NULL` is `recipient = none`, and a
comparison with NULL is false, matching `Option` equality. -/
def studentRelevantB (studentId : String) (r : MessageRow) : Bool :=
  (r.type == "notification" && r.role == "system" && r.recipient == none)
  || r.sender == studentId
  || (r.role == "teacher" && (r.recipient == some studentId || r.recipient == none))
  || (r.sender == "ai-assistant" && r.recipient == some studentId)

/-- `getStudentRelevantMessages` (src/models/message.js): the privacy filter
applied to the session's rows, ordered by timestamp ascending. -/
def getStudentRelevantMessages (sessionId studentId : String)
    (db : List MessageRow) : List MessageView :=
  (sortByTs (db.filter (fun r => r.sessionId == sessionId && studentRelevantB studentId r))).map
    viewOf

/-- The WHERE-clause of `getStudentMessages` (teacher-side, broader OR
semantics over sender id, sender name and recipient). -/
def studentMessagesB (studentId studentUsername : String) (r : MessageRow) : Bool :=
  r.type == "notification"
  || r.sender == studentId
  || r.senderName == some studentUsername
  || r.recipient == some studentId
  || (r.sender == "ai-assistant" && r.recipient == some studentId)

/-- A student record, both as cached and as stored (`students` table):
`id` is the current socket id, `persistentId` the stable identity. -/
structure StudentRec where
  id : String
  persistentId : String
  username : String
  status : String
  lastActive : String
  sessionId : String
deriving DecidableEq, Repr

/-- `getSessionStudents` (src/models/student.js): all student rows of the
session, in insertion order (the query has no ORDER BY). -/
def getSessionStudents (sessionId : String) (db : List StudentRec) : List StudentRec :=
  db.filter (fun s => s.sessionId == sessionId)

/-- `saveStudent` (src/models/student.js) at the table level: update the
rows matching the persistent id (username, status, last_active, socket_id;
`session_id` is not part of the UPDATE), else insert the record. -/
def saveStudentDbList (db : List StudentRec) (s : StudentRec) : List StudentRec :=
  if db.any (fun r => r.persistentId == s.persistentId) then
    db.map (fun r =>
      if r.persistentId == s.persistentId then
        { r with username := s.username, status := s.status
                 lastActive := s.lastActive, id := s.id }
      else r)
  else db ++ [s]

/-- `findStudent` (src/models/student.js): by session and persistent id if
`studentId` is truthy, else by session and socket id if `socketId` is. -/
def findStudent (db : List StudentRec) (sessionId studentId socketId : String) :
    Option StudentRec :=
  if studentId ≠ "" then
    db.find? (fun r => r.sessionId == sessionId && r.persistentId == studentId)
  else if socketId ≠ "" then
    db.find? (fun r => r.sessionId == sessionId && r.id == socketId)
  else none

/-- Per-socket `socket.userData`, set by `handleJoinRoom`. -/
structure UserData where
  currentRoom : String
  username : String
  role : String
  socketId : String
  persistentId : String
deriving DecidableEq, Repr

/-- Association-list lookup keyed by session or socket id (a JS object used
as a map). -/
def alookup {α : Type} (l : List (String × α)) (k : String) : Option α :=
  (l.find? (fun p => p.1 == k)).map (fun p => p.2)

/-- Association-list update or insert (`map[key] = value`): an existing key
keeps its position, a new key is appended, as JS object assignment does. -/
def aset {α : Type} : List (String × α) → String → α → List (String × α)
  | [], k, v => [(k, v)]
  | p :: l, k, v => if p.1 = k then (k, v) :: l else p :: aset l k v

/-- Association-list delete (`delete map[key]`). -/
def aremove {α : Type} (l : List (String × α)) (k : String) : List (String × α) :=
  l.filter (fun p => p.1 ≠ k)

/-- The whole server's mutable state: the three durable tables and the three
in-memory maps of `src/services/chat.js`, plus each socket's `userData`. -/
structure ServerState where
  dbSessions : List String
  dbMessages : List MessageRow
  dbStudents : List StudentRec
  chatCache : List (String × List MessageView)
  roomStudents : List (String × List StudentRec)
  roomTeachers : List (String × String)
  socketData : List (String × UserData)
deriving DecidableEq, Repr

/-- The pristine state at process start. -/
def initState : ServerState :=
  { dbSessions := [], dbMessages := [], dbStudents := []
    chatCache := [], roomStudents := [], roomTeachers := [], socketData := [] }

/-- `chatCache[sessionId]`; a missing entry behaves as `[]` in every reader. -/
def chatCacheOf (st : ServerState) (sessionId : String) : List MessageView :=
  (alookup st.chatCache sessionId).getD []

/-- `roomStudents[sessionId]`; a missing entry behaves as `[]` in every reader. -/
def roomStudentsOf (st : ServerState) (sessionId : String) : List StudentRec :=
  (alookup st.roomStudents sessionId).getD []

/-- `loadChatHistory` (src/services/chat.js): return the cache when it is
non-empty, else hydrate it from `getSessionMessages`. -/
def loadChatHistory (st : ServerState) (sessionId : String) :
    List MessageView × ServerState :=
  let c := chatCacheOf st sessionId
  if c ≠ [] then (c, st)
  else
    let msgs := getSessionMessages sessionId st.dbMessages
    (msgs, { st with chatCache := aset st.chatCache sessionId msgs })

/-- `loadStudents` (src/services/chat.js): return the cache when it is
non-empty, else hydrate it from `getSessionStudents`. -/
def loadStudents (st : ServerState) (sessionId : String) :
    List StudentRec × ServerState :=
  let c := roomStudentsOf st sessionId
  if c ≠ [] then (c, st)
  else
    let ss := getSessionStudents sessionId st.dbStudents
    (ss, { st with roomStudents := aset st.roomStudents sessionId ss })

/-- The object `addMessageToCache` pushes: the message's own fields with
`type`/`role` defaulted, `senderName`/`recipient` stored as given. -/
def cacheViewOf (m : MessageIn) : MessageView :=
  { id := m.id, sender := m.sender, senderName := some m.senderName, text := m.text
    timestamp := m.timestamp, type := jsOr m.type "message"
    role := jsOr m.role "system", recipient := m.recipient }

/-- `addMessageToCache` (src/services/chat.js): append the frontend-shaped
message to the session's cache entry, creating the entry if absent. -/
def addMessageToCache (st : ServerState) (m : MessageIn) : ServerState :=
  { st with chatCache := (aset st.chatCache m.sessionId
      (chatCacheOf st m.sessionId ++ [cacheViewOf m])) }

/-- `getTeacherSocketId` (src/services/chat.js): `roomTeachers[sessionId] || null`. -/
def getTeacherSocketId (st : ServerState) (sessionId : String) : Option String :=
  alookup st.roomTeachers sessionId

/-- `setTeacherSocketId` (src/services/chat.js). -/
def setTeacherSocketId (st : ServerState) (sessionId socketId : String) : ServerState :=
  { st with roomTeachers := aset st.roomTeachers sessionId socketId }

/-- `removeTeacherSocketId` (src/services/chat.js). -/
def removeTeacherSocketId (st : ServerState) (sessionId : String) : ServerState :=
  { st with roomTeachers := aremove st.roomTeachers sessionId }

/-- The list-level effect of `updateStudentInCache`: replace the first
record matching the persistent id or the socket id, else append.  The JS
merge `{...existing, ...student}` equals `student` because every caller
passes a record with all fields present. -/
def updateList (l : List StudentRec) (s : StudentRec) : List StudentRec :=
  match l.findIdx? (fun r => r.persistentId == s.persistentId || r.id == s.id) with
  | some i => l.set i s
  | none => l ++ [s]

/-- `updateStudentInCache` (src/services/chat.js). -/
def updateStudentInCache (st : ServerState) (sessionId : String) (s : StudentRec) :
    ServerState :=
  { st with roomStudents := (aset st.roomStudents sessionId
      (updateList (roomStudentsOf st sessionId) s)) }

/-- `removeStudentFromCache` (src/services/chat.js): keep records whose
persistent id differs (when `studentId` is truthy) or whose socket id
differs (when `socketId` is truthy). -/
def removeStudentFromCache (st : ServerState) (sessionId studentId socketId : String) :
    ServerState :=
  let l := (roomStudentsOf st sessionId).filter (fun s =>
    (studentId ≠ "" && s.persistentId ≠ studentId) || (socketId ≠ "" && s.id ≠ socketId))
  { st with roomStudents := aset st.roomStudents sessionId l }

/-- `findStudentInCache` (src/services/chat.js): first cached record matching
the truthy persistent id or the truthy socket id. -/
def findStudentInCache (st : ServerState) (sessionId studentId socketId : String) :
    Option StudentRec :=
  (roomStudentsOf st sessionId).find? (fun s =>
    (studentId ≠ "" && s.persistentId == studentId) || (socketId ≠ "" && s.id == socketId))

/-- `getStudentsFromCache` (src/services/chat.js): `roomStudents[sessionId] || []`. -/
def getStudentsFromCache (st : ServerState) (sessionId : String) : List StudentRec :=
  roomStudentsOf st sessionId

/-- `ensureSessionExists` (src/models/session.js): insert the session row if
absent. -/
def ensureSessionExists (st : ServerState) (sessionId : String) : ServerState :=
  if st.dbSessions.contains sessionId then st
  else { st with dbSessions := st.dbSessions ++ [sessionId] }

/-- Where an outbound event is delivered: one socket, or a whole room. -/
inductive Target where
  | sock (id : String)
  | room (sessionId : String)
deriving DecidableEq, Repr

/-- An outbound event, with its payload. -/
inductive Emit where
  | errorEv (t : Target) (msg : String)
  | message (t : Target) (m : MessageIn)
  | chatHistory (t : Target) (ms : List MessageView)
  | studentList (t : Target) (ss : List StudentRec)
deriving DecidableEq, Repr

/-- The `message`-event emissions of an emit list, in order. -/
def messageEmits (es : List Emit) : List (Target × MessageIn) :=
  es.filterMap (fun e =>
    match e with
    | Emit.message t m => some (t, m)
    | _ => none)

/-- The `chat_history`-event emissions of an emit list, in order. -/
def chatHistoryEmits (es : List Emit) : List (Target × List MessageView) :=
  es.filterMap (fun e =>
    match e with
    | Emit.chatHistory t ms => some (t, ms)
    | _ => none)

/-- The `error`-event emissions of an emit list, in order. -/
def errorEmits (es : List Emit) : List (Target × String) :=
  es.filterMap (fun e =>
    match e with
    | Emit.errorEv t m => some (t, m)
    | _ => none)

/-- The student-id resolution of `handleJoinRoom` (src/services/socket.js,
the `userRole === "student"` block): an existing student with a
case-insensitively equal username wins; else a missing supplied id means a
fresh `generateStudentId`; else a supplied id whose stored username
mismatches is replaced by a fresh id, and an unknown supplied id is kept.
`students` is what `loadStudents` returned; `findStudent` queries the
`students` table directly. -/
def resolveStudentId (students : List StudentRec) (db : List StudentRec)
    (sessionId username suppliedId uuid : String) : String :=
  match students.find? (fun s => toLowerStr s.username == toLowerStr username) with
  | some s => s.persistentId
  | none =>
    if suppliedId = "" then generateStudentId username sessionId uuid
    else
      match findStudent db sessionId suppliedId "" with
      | some existing =>
        if toLowerStr existing.username ≠ toLowerStr username then
          generateStudentId username sessionId uuid
        else suppliedId
      | none => suppliedId

/-- The resolved persistent id a student join obtains at a given state,
including the `loadStudents` hydration the handler performs first. -/
def joinResolvedId (st : ServerState) (sessionId username suppliedId uuid : String) :
    String :=
  let p := loadStudents st sessionId
  resolveStudentId p.1 p.2.dbStudents sessionId username suppliedId uuid

/-- The student-id resolution step of `handleJoinRoom` (the
`userRole === "student"` block, including its `loadStudents` call). -/
def joinResolve (st : ServerState)
    (sessionId sanitized userRole suppliedId uuid : String) : ServerState × String :=
  if userRole = "student" then
    let q := loadStudents st sessionId
    (q.2, resolveStudentId q.1 q.2.dbStudents sessionId sanitized suppliedId uuid)
  else (st, suppliedId)

/-- The registration step of `handleJoinRoom`: the teacher takes the
teacher slot and receives the roster; a student record is written to cache
and storage and the teacher (if present) receives the roster.  The
reconnect and new-student branches of the source build the same record and
apply the same two updates, so they are written once. -/
def joinRegister (st : ServerState)
    (sessionId sockId sanitized userRole studentId ts : String) :
    ServerState × List Emit :=
  if userRole = "teacher" then
    let stT := setTeacherSocketId st sessionId sockId
    (stT, [Emit.studentList (Target.sock sockId) (getStudentsFromCache stT sessionId)])
  else
    let studentInfo : StudentRec :=
      { id := sockId, persistentId := studentId, username := sanitized
        status := "online", lastActive := ts, sessionId := sessionId }
    let stS := updateStudentInCache st sessionId studentInfo
    let stS2 := { stS with dbStudents := (saveStudentDbList stS.dbStudents studentInfo) }
    let em :=
      match getTeacherSocketId stS2 sessionId with
      | some tid => [Emit.studentList (Target.sock tid) (getStudentsFromCache stS2 sessionId)]
      | none => []
    (stS2, em)

/-- The notification pattern shared by the join, leave and disconnect
handlers: build a system message, persist it (`saveMessage` mutates the
object's id in place), mirror it into the cache, and hand back the mutated
object for the emits. -/
def systemNotify (st : ServerState)
    (sessionId text msgRole mNow mUuid ts : String) : ServerState × MessageIn :=
  let msgIn : MessageIn :=
    { id := generateUniqueMessageId mNow mUuid, sessionId := sessionId
      sender := "system", senderName := "System", text := text, timestamp := ts
      type := "notification", role := msgRole, recipient := none }
  let row := saveMessageRow (generateUniqueMessageId mNow mUuid) msgIn
  let st7 := { st with dbMessages := (st.dbMessages ++ [row]) }
  let msgMut := { msgIn with id := row.id }
  (addMessageToCache st7 msgMut, msgMut)

/-- The history step of `handleJoinRoom`: a student receives the filtered
history straight from storage, a teacher the full history via the cache. -/
def joinHistory (st : ServerState) (sessionId sockId userRole studentId : String) :
    ServerState × List Emit :=
  if userRole = "student" then
    (st, [Emit.chatHistory (Target.sock sockId)
      (getStudentRelevantMessages sessionId studentId st.dbMessages)])
  else if userRole = "teacher" then
    let q := loadChatHistory st sessionId
    (q.2, [Emit.chatHistory (Target.sock sockId) q.1])
  else (st, [])

/-- `handleJoinRoom` (src/services/socket.js).  The random inputs are
explicit: `uuid` feeds `generateStudentId`, `mNow`/`mUuid` feed
`generateUniqueMessageId` for the join notification, `ts` is
`new Date().toISOString()`. -/
def handleJoinRoom (st : ServerState)
    (sockId sessionId username role suppliedId uuid mNow mUuid ts : String) :
    ServerState × List Emit :=
  if sessionId = "" then (st, [Emit.errorEv (Target.sock sockId) "Room ID is required"])
  else
    let sanitized := jsOr username "Anonymous"
    let userRole := jsOr role "student"
    let p1 := joinResolve st sessionId sanitized userRole suppliedId uuid
    let ud : UserData :=
      { currentRoom := sessionId, username := sanitized, role := userRole
        socketId := sockId, persistentId := p1.2 }
    let st2 := { p1.1 with socketData := (aset p1.1.socketData sockId ud) }
    let st3 := ensureSessionExists st2 sessionId
    let st4 := (loadChatHistory st3 sessionId).2
    let st5 := (loadStudents st4 sessionId).2
    let p6 := joinRegister st5 sessionId sockId sanitized userRole p1.2 ts
    let p8 := systemNotify p6.1 sessionId (sanitized ++ " has joined as " ++ userRole)
      userRole mNow mUuid ts
    let em2 :=
      (match getTeacherSocketId p8.1 sessionId with
       | some tid => [Emit.message (Target.sock tid) p8.2]
       | none => []) ++ [Emit.message (Target.sock sockId) p8.2]
    let p9 := joinHistory p8.1 sessionId sockId userRole p1.2
    (p9.1, p6.2 ++ em2 ++ p9.2)

/-- The `message` object of a `send_message` payload; `""` stands for an
absent field.  The source coerces a non-string `text` with `String(...)`,
which is out of scope here: `text` is the already-string value. -/
structure MsgPayload where
  id : String
  sender : String
  text : String
  timestamp : String
  type : String
  role : String
deriving DecidableEq, Repr

/-- A `send_message` payload. -/
structure SendData where
  sessionId : String
  message : Option MsgPayload
  recipient : String
  studentId : String
deriving DecidableEq, Repr

/-- The `senderInfo` record `handleSendMessage` builds for `formatMessage`. -/
structure SenderInfo where
  senderId : String
  username : String
  role : String
deriving DecidableEq, Repr

/-- `formatMessage` (src/utils/helpers.js): defaults per field; `genId` is
the `generateUniqueMessageId()` fallback, `now` the current ISO time. -/
def formatMessage (md : SendData) (p : MsgPayload) (sessionId : String)
    (si : SenderInfo) (genId now : String) : MessageIn :=
  { id := jsOr p.id genId
    sessionId := sessionId
    sender := si.senderId
    senderName := jsOr p.sender (jsOr si.username "Anonymous")
    text := p.text
    timestamp := jsOr p.timestamp now
    type := jsOr p.type "message"
    role := jsOr p.role si.role
    recipient := jsStrOrNone md.recipient }

/-- `socket.userData?.role || "student"` in `handleSendMessage`. -/
def sendUserRole (st : ServerState) (sockId : String) : String :=
  match alookup st.socketData sockId with
  | some u => jsOr u.role "student"
  | none => "student"

/-- The outward sender id of `handleSendMessage`: the payload's persistent
`studentId` for a student connection when supplied, else the raw socket id. -/
def sendSenderId (st : ServerState) (sockId : String) (d : SendData) : String :=
  if sendUserRole st sockId = "student" ∧ d.studentId ≠ "" then d.studentId else sockId

/-- The `senderInfo` record `handleSendMessage` passes to `formatMessage`. -/
def sendSenderInfo (st : ServerState) (sockId : String) (d : SendData) : SenderInfo :=
  { senderId := sendSenderId st sockId d
    username :=
      match alookup st.socketData sockId with
      | some u => jsOr u.username "Anonymous"
      | none => "Anonymous"
    role := sendUserRole st sockId }

/-- The row `handleSendMessage` persists for a valid payload. -/
def sentRow (st : ServerState) (sockId : String) (d : SendData) (p : MsgPayload)
    (genNow genUuid regenNow regenUuid now : String) : MessageRow :=
  saveMessageRow (generateUniqueMessageId regenNow regenUuid)
    (formatMessage d p d.sessionId (sendSenderInfo st sockId d)
      (generateUniqueMessageId genNow genUuid) now)

/-- The formatted message object after `saveMessage` mutated its id in
place: what `addMessageToCache` and the emits see. -/
def sentMut (st : ServerState) (sockId : String) (d : SendData) (p : MsgPayload)
    (genNow genUuid regenNow regenUuid now : String) : MessageIn :=
  { formatMessage d p d.sessionId (sendSenderInfo st sockId d)
      (generateUniqueMessageId genNow genUuid) now with
    id := (sentRow st sockId d p genNow genUuid regenNow regenUuid now).id }

/-- `handleSendMessage` (src/services/socket.js).  The message is persisted
and cached before dispatch; in the student-dispatch branch the echo reads
`socket.userData.username` without optional chaining, so an unjoined socket
throws there and the catch emits the generic failure — after the persist.
`formattedMessage.recipient` is never `some ""` (see `formatMessage`), so
matching on `some` is the truthiness test. -/
def handleSendMessage (st : ServerState) (sockId : String) (md : Option SendData)
    (genNow genUuid regenNow regenUuid now : String) : ServerState × List Emit :=
  match md with
  | none => (st, [Emit.errorEv (Target.sock sockId) "Invalid message format"])
  | some d =>
    if d.sessionId = "" then (st, [Emit.errorEv (Target.sock sockId) "Invalid message format"])
    else
      match d.message with
      | none => (st, [Emit.errorEv (Target.sock sockId) "Invalid message format"])
      | some p =>
        let ud := alookup st.socketData sockId
        let userRole := sendUserRole st sockId
        let row := sentRow st sockId d p genNow genUuid regenNow regenUuid now
        let st1 := { st with dbMessages := (st.dbMessages ++ [row]) }
        let fm' := sentMut st sockId d p genNow genUuid regenNow regenUuid now
        let st2 := addMessageToCache st1 fm'
        let disp :=
          if fm'.role = "ai" ∨ fm'.sender = "ai-assistant" then
            let em1 :=
              match getTeacherSocketId st2 d.sessionId with
              | some tid => [Emit.message (Target.sock tid) fm']
              | none => []
            let em2 :=
              match fm'.recipient with
              | some rc =>
                (match findStudentInCache st2 d.sessionId rc "" with
                 | some s => [Emit.message (Target.sock s.id) fm']
                 | none => [])
              | none => []
            (em1 ++ em2, true)
          else if userRole = "teacher" ∧ d.recipient ≠ "" then
            let em1 :=
              match findStudentInCache st2 d.sessionId d.recipient "" with
              | some s => [Emit.message (Target.sock s.id) { fm' with sender := "teacher" }]
              | none => []
            (em1 ++ [Emit.message (Target.sock sockId) fm'], true)
          else if userRole = "student" then
            let em1 :=
              match getTeacherSocketId st2 d.sessionId with
              | some tid => [Emit.message (Target.sock tid) fm']
              | none => []
            match ud with
            | some u =>
              (em1 ++ [Emit.message (Target.sock sockId) { fm' with sender := u.username }], true)
            | none => (em1, false)
          else ([], true)
        if disp.2 then
          let tail :=
            if userRole = "student" then
              let s? :=
                if d.studentId ≠ "" then findStudentInCache st2 d.sessionId d.studentId ""
                else findStudentInCache st2 d.sessionId "" sockId
              match s? with
              | some s =>
                let upd := { s with lastActive := now, status := "active" }
                let st3 := updateStudentInCache st2 d.sessionId upd
                let st4 := { st3 with dbStudents := (saveStudentDbList st3.dbStudents upd) }
                let em :=
                  match getTeacherSocketId st4 d.sessionId with
                  | some tid =>
                    [Emit.studentList (Target.sock tid) (getStudentsFromCache st4 d.sessionId)]
                  | none => []
                (st4, em)
              | none => (st2, [])
            else (st2, [])
          (tail.1, disp.1 ++ tail.2)
        else
          (st2, disp.1 ++ [Emit.errorEv (Target.sock sockId) "Failed to process message"])

/-- `handleLeaveRoom` (src/services/socket.js). -/
def handleLeaveRoom (st : ServerState)
    (sockId sessionId username studentId mNow mUuid ts : String) :
    ServerState × List Emit :=
  let userRole :=
    match alookup st.socketData sockId with
    | some u => jsOr u.role "student"
    | none => "student"
  let q := systemNotify st sessionId (username ++ " has left the room") userRole mNow mUuid ts
  let st2 := q.1
  let leaveMut := q.2
  if userRole = "teacher" then
    (removeTeacherSocketId st2 sessionId, [Emit.message (Target.room sessionId) leaveMut])
  else
    match getTeacherSocketId st2 sessionId with
    | none => (st2, [])
    | some tid =>
      let em1 := [Emit.message (Target.sock tid) leaveMut]
      let s? :=
        if studentId ≠ "" then findStudentInCache st2 sessionId studentId ""
        else findStudentInCache st2 sessionId "" sockId
      match s? with
      | none => (st2, em1)
      | some found =>
        let upd := { found with status := "offline", lastActive := ts }
        let st3 := { st2 with dbStudents := (saveStudentDbList st2.dbStudents upd) }
        let st4 := removeStudentFromCache st3 sessionId (jsOr studentId found.persistentId)
          (if studentId ≠ "" then "" else sockId)
        (st4, em1 ++ [Emit.studentList (Target.sock tid) (getStudentsFromCache st4 sessionId)])

/-- `handleDisconnect` (src/services/socket.js). -/
def handleDisconnect (st : ServerState) (sockId mNow mUuid ts : String) :
    ServerState × List Emit :=
  match alookup st.socketData sockId with
  | none => (st, [])
  | some ud =>
    if ud.currentRoom = "" then (st, [])
    else
      let sessionId := ud.currentRoom
      let p1 :=
        if ud.role = "teacher" ∧ getTeacherSocketId st sessionId = some sockId then
          (removeTeacherSocketId st sessionId, ([] : List Emit))
        else if ud.role = "student" then
          let s? :=
            if ud.persistentId ≠ "" then findStudentInCache st sessionId ud.persistentId ""
            else findStudentInCache st sessionId "" sockId
          match s? with
          | some s =>
            let upd := { s with status := "offline", lastActive := ts }
            let st1 := { st with dbStudents := (saveStudentDbList st.dbStudents upd) }
            let st2 := updateStudentInCache st1 sessionId upd
            let em :=
              match getTeacherSocketId st2 sessionId with
              | some tid =>
                [Emit.studentList (Target.sock tid) (getStudentsFromCache st2 sessionId)]
              | none => []
            (st2, em)
          | none => (st, [])
        else (st, [])
      let q := systemNotify p1.1 sessionId (ud.username ++ " has disconnected")
        ud.role mNow mUuid ts
      let em2 :=
        if ud.role = "teacher" then [Emit.message (Target.room sessionId) q.2]
        else
          match getTeacherSocketId q.1 sessionId with
          | some tid => [Emit.message (Target.sock tid) q.2]
          | none => []
      (q.1, p1.2 ++ em2)

/-- An inbound event with its random inputs, for reasoning about runs. -/
inductive SEv where
  | evJoin (sockId sessionId username role suppliedId uuid mNow mUuid ts : String)
  | evSend (sockId : String) (md : Option SendData) (genNow genUuid regenNow regenUuid ts : String)
  | evLeave (sockId sessionId username studentId mNow mUuid ts : String)
  | evDisc (sockId mNow mUuid ts : String)
deriving DecidableEq, Repr

/-- Dispatch one inbound event to its handler. -/
def stepEv (st : ServerState) : SEv → ServerState × List Emit
  | SEv.evJoin a b c d e f g h i => handleJoinRoom st a b c d e f g h i
  | SEv.evSend a md g1 g2 r1 r2 t => handleSendMessage st a md g1 g2 r1 r2 t
  | SEv.evLeave a b c d e f g => handleLeaveRoom st a b c d e f g
  | SEv.evDisc a b c d => handleDisconnect st a b c d

/-- Run a trace of events, keeping only the final state. -/
def runEvs (st : ServerState) (tr : List SEv) : ServerState :=
  tr.foldl (fun s e => (stepEv s e).1) st

/-- The timestamp any message row appended by the event carries: the event's
clock reading, except that a send may carry a client-supplied timestamp. -/
def evTs : SEv → String
  | SEv.evJoin _ _ _ _ _ _ _ _ ts => ts
  | SEv.evSend _ md _ _ _ _ ts =>
    (match md with
     | some d =>
       (match d.message with
        | some p => jsOr p.timestamp ts
        | none => ts)
     | none => ts)
  | SEv.evLeave _ _ _ _ _ _ ts => ts
  | SEv.evDisc _ _ _ ts => ts

/-- The visibility clauses of the specification, stated from its words: a
broadcast system notification, or the student's own message, or a teacher
message addressed to the student or broadcast, or an AI message addressed
to the student.  To be compared with the implementation's
`studentRelevantB`. -/
def specStudentVisible (studentId : String) (r : MessageRow) : Prop :=
  (r.type = "notification" ∧ r.role = "system" ∧ r.recipient = none)
  ∨ r.sender = studentId
  ∨ (r.role = "teacher" ∧ (r.recipient = some studentId ∨ r.recipient = none))
  ∨ (r.sender = "ai-assistant" ∧ r.recipient = some studentId)

/-- `getSessionMessages` with the outcome of its `db.all` call explicit:
the function's own try/catch turns a storage error into `[]`. -/
def getSessionMessagesT (fetch : Except String (List MessageRow)) (sessionId : String) :
    List MessageView :=
  match fetch with
  | Except.error _ => []
  | Except.ok db => getSessionMessages sessionId db

/-- `getSessionStudents` with the outcome of its `db.all` call explicit:
its try/catch also turns a storage error into `[]`. -/
def getSessionStudentsT (fetch : Except String (List StudentRec)) (sessionId : String) :
    List StudentRec :=
  match fetch with
  | Except.error _ => []
  | Except.ok db => getSessionStudents sessionId db

/-- `loadChatHistory` over the fallible store: the result is the returned
history together with the session's cache entry afterwards, wrapped in
`Except` to express whether any error reaches `loadChatHistory`'s caller
(it is the caller of `getSessionMessages`, whose promise never rejects). -/
def loadChatHistoryT (cache : List MessageView) (fetch : Except String (List MessageRow))
    (sessionId : String) : Except String (List MessageView × List MessageView) :=
  if cache ≠ [] then Except.ok (cache, cache)
  else Except.ok (getSessionMessagesT fetch sessionId, getSessionMessagesT fetch sessionId)

/-- A persisted teacher-role message addressed to `"Y1"` but sent by
student `"X1"` (the sender field is the student's own persistent id). -/
def rowLeak : MessageRow :=
  { id := "m1", sessionId := "s1", sender := "X1", senderName := some "Ana"
    text := "hi", timestamp := "T1", type := "message", role := "teacher"
    recipient := some "Y1" }

/-- A broadcast system notification row. -/
def rowNotice : MessageRow :=
  { id := "m2", sessionId := "s1", sender := "system", senderName := some "System"
    text := "Ana has joined as student", timestamp := "T0", type := "notification"
    role := "system", recipient := none }

/-- A message whose client-chosen id has no underscore: `saveMessage`
replaces such an id. -/
def msgNoUnderscore : MessageIn :=
  { id := "abc", sessionId := "s1", sender := "X1", senderName := "Ana"
    text := "hi", timestamp := "T2", type := "message", role := "student"
    recipient := none }

/-- A well-formed message for the round-trip witness. -/
def msgGood : MessageIn :=
  { id := "1700_aa", sessionId := "s1", sender := "X1", senderName := "Ana"
    text := "hello", timestamp := "T3", type := "message", role := "student"
    recipient := some "R1" }

/-- A cached student record used by concrete witnesses. -/
def recBob : StudentRec :=
  { id := "b1", persistentId := "P_bob_1", username := "Bob", status := "online"
    lastActive := "T0", sessionId := "s1" }

/-- A stored student record holding the persistent id `"sup_1"` under
username `"Zoe"`. -/
def recZoe : StudentRec :=
  { id := "z1", persistentId := "sup_1", username := "Zoe", status := "online"
    lastActive := "T0", sessionId := "s1" }

/-- A state whose caches for session `"s1"` are non-empty. -/
def c6St : ServerState :=
  { initState with
    chatCache := [("s1", [viewOf rowNotice])]
    roomStudents := [("s1", [recBob])] }

/-- What `loadStudents` returns: the cached roster when non-empty, else the
stored one. -/
def hydratedStudents (st : ServerState) (sessionId : String) : List StudentRec :=
  if roomStudentsOf st sessionId ≠ [] then roomStudentsOf st sessionId
  else getSessionStudents sessionId st.dbStudents

/-- What `loadChatHistory` returns: the cached history when non-empty, else
the stored one. -/
def hydratedHistory (st : ServerState) (sessionId : String) : List MessageView :=
  if chatCacheOf st sessionId ≠ [] then chatCacheOf st sessionId
  else getSessionMessages sessionId st.dbMessages

/-- The stored message rows of one session, in insertion order. -/
def msgRowsOf (st : ServerState) (sessionId : String) : List MessageRow :=
  st.dbMessages.filter (fun r => r.sessionId == sessionId)

/-- Every session's history cache mirrors its stored rows (which holds in
every run from the pristine state: each persist is paired with a cache
append, and hydration copies the stored rows). -/
def msgCacheCoherent (st : ServerState) : Prop :=
  ∀ sessionId, chatCacheOf st sessionId = (msgRowsOf st sessionId).map viewOf

/-- The stored message rows are in nondecreasing timestamp order. -/
def tsSortedRows (st : ServerState) : Prop :=
  List.Pairwise (fun a b => tsLe a.timestamp b.timestamp = true) st.dbMessages

/-- Every stored timestamp is at most `b`. -/
def tsBounded (st : ServerState) (b : String) : Prop :=
  ∀ r ∈ st.dbMessages, tsLe r.timestamp b = true

/-- The run invariant behind teacher omniscience: coherent cache, sorted
store, store bounded by the clock. -/
def msgInv (st : ServerState) (b : String) : Prop :=
  msgCacheCoherent st ∧ tsSortedRows st ∧ tsBounded st b

/-- The events' effective message timestamps never decrease, starting from
clock reading `b`. -/
def wfChainB : String → List SEv → Bool
  | _, [] => true
  | b, e :: tr => tsLe b (evTs e) && wfChainB (evTs e) tr

/-- A non-empty roster whose every record carries the persistent id `X` and
a username whose lowercase form is `lowu` — the shape the roster keeps in a
run where `X`'s student is the only one who ever joins. -/
def onlyGoodStudents (lowu X : String) (l : List StudentRec) : Prop :=
  l ≠ [] ∧ ∀ r ∈ l, r.persistentId = X ∧ toLowerStr r.username = lowu

/-- The identity-stability invariant for claim C3: the stored roster of the
session is non-empty and entirely `X`'s, the cached roster is empty or
likewise, and every joined socket belongs to this session. -/
def c3GoodState (sessionId lowu X : String) (st : ServerState) : Prop :=
  onlyGoodStudents lowu X (getSessionStudents sessionId st.dbStudents)
  ∧ (roomStudentsOf st sessionId = [] ∨ onlyGoodStudents lowu X (roomStudentsOf st sessionId))
  ∧ (∀ p ∈ st.socketData, p.2.currentRoom = sessionId)

/-- The events claim C3 (amended) ranges over: joins of the one student
(case-insensitively the same name, no supplied id), teacher joins of the
same session, and disconnects. -/
def allowedC3Ev (sessionId lowu : String) : SEv → Bool
  | SEv.evJoin _ sid u role supplied _ _ _ _ =>
    sid == sessionId &&
      ((jsOr role "student" == "teacher")
        || ((jsOr role "student" == "student")
            && toLowerStr (jsOr u "Anonymous") == lowu && supplied == ""))
  | SEv.evDisc _ _ _ _ => true
  | _ => false

/-- A plain client message payload with every optional field absent. -/
def exMsgPlain : MsgPayload :=
  { id := "", sender := "", text := "hi", timestamp := "", type := "", role := "" }

/-- A client message payload claiming role `"ai"`. -/
def exMsgAi : MsgPayload :=
  { id := "", sender := "", text := "hi", timestamp := "", type := "", role := "ai" }

/-- A client message payload claiming role `"teacher"`. -/
def exMsgForge : MsgPayload :=
  { id := "", sender := "", text := "obey", timestamp := "", type := "", role := "teacher" }

/-- A `send_message` payload addressed to Ana's persistent id. -/
def exSendHi : SendData :=
  { sessionId := "12345", message := some exMsgPlain
    recipient := "12345_ana_u1", studentId := "" }

/-- The same payload but with the client-claimed role `"ai"`. -/
def exSendAi : SendData :=
  { sessionId := "12345", message := some exMsgAi
    recipient := "12345_ana_u1", studentId := "" }

/-- A broadcast payload claiming role `"teacher"`, as a student would forge
it. -/
def exSendForge : SendData :=
  { sessionId := "12345", message := some exMsgForge
    recipient := "", studentId := "12345_ana_u1" }

/-- Teacher `"t1"` joined session `"12345"`. -/
def exSt1 : ServerState :=
  (handleJoinRoom initState "t1" "12345" "MrT" "teacher" "" "u0" "100" "mA" "TA").1

/-- … then student Ana joined on socket `"a1"` (persistent id
`"12345_ana_u1"`). -/
def exSt2 : ServerState :=
  (handleJoinRoom exSt1 "a1" "12345" "Ana" "student" "" "u1" "101" "mB" "TB").1

/-- … then student Bob joined on socket `"b1"`. -/
def exSt3 : ServerState :=
  (handleJoinRoom exSt2 "b1" "12345" "Bob" "student" "" "u2" "102" "mC" "TC").1

/-- … then Ana left the room (her record is removed from the cache, which
stays non-empty because Bob is cached). -/
def exSt4 : ServerState :=
  (handleLeaveRoom exSt3 "a1" "12345" "Ana" "" "103" "mD" "TD").1

/-- The clock reading after a trace: the last event's effective message
timestamp, or the starting reading for the empty trace. -/
def lastTs (b : String) (tr : List SEv) : String :=
  tr.foldl (fun _ e => evTs e) b

/-- A `send_message` whose payload back-dates its timestamp to `"0000"`,
before every stored notification timestamp. -/
def backSend : SendData :=
  { sessionId := "12345"
    message := some { id := "", sender := "", text := "old", timestamp := "0000"
                      type := "", role := "" }
    recipient := "", studentId := "12345_ana_u1" }

/-- … on top of `exSt2`, Ana sends the back-dated message: it is persisted
with timestamp `"0000"` but cached after the join notifications. -/
def c4St : ServerState :=
  (handleSendMessage exSt2 "a1" (some backSend) "500" "mX" "501" "mY" "TX").1

/-- The class discipline the amended claim C3 maintains for one tracked
student: a roster record bears the student's lowercase username exactly
when it bears the student's persistent id `X`, and exactly when its socket
id is one of the student's own connections (`S`). -/
def classRec (lowu X : String) (S : String → Bool) (r : StudentRec) : Prop :=
  (toLowerStr r.username = lowu ↔ r.persistentId = X)
  ∧ (toLowerStr r.username = lowu ↔ S r.id = true)

/-- The identity-stability invariant for claim C3 (amended): the session's
roster cache is non-empty, every cached record obeys the class discipline
and one of them is the tracked student's; every stored row carrying id `X`
belongs to the session under the student's name and at least one such row
exists; and no other session's cache mentions `X`. -/
def c3Inv (sessionId lowu X : String) (S : String → Bool) (st : ServerState) : Prop :=
  roomStudentsOf st sessionId ≠ []
  ∧ (∀ r ∈ roomStudentsOf st sessionId, classRec lowu X S r)
  ∧ (∃ r ∈ roomStudentsOf st sessionId, toLowerStr r.username = lowu)
  ∧ (∀ r ∈ st.dbStudents, r.persistentId = X →
      r.sessionId = sessionId ∧ toLowerStr r.username = lowu)
  ∧ (∃ r ∈ st.dbStudents, r.sessionId = sessionId ∧ r.persistentId = X)
  ∧ (∀ sid, sid ≠ sessionId → ∀ r ∈ roomStudentsOf st sid, r.persistentId ≠ X)

/-- The events claim C3 (amended) ranges over: everything except
`leave_room`, whose cache eviction the counterexample shows breaks
stability.  Teacher joins, sends and disconnects are unrestricted.
Student joins carry only physical side conditions: the tracked student's
own joins (case-insensitively equal username, this session) arrive on the
student's own connections `S`, other clients' joins on other sockets
(Socket.IO never reuses a live connection id — see
`socket_reuse_breaks_identity`), a freshly generated id never collides
with the tracked id `X` (random uuid, as in claim C2's freshness
hypothesis), and joins to other sessions never supply `X` explicitly. -/
def c3AllowedEv (sessionId lowu X : String) (S : String → Bool) : SEv → Bool
  | SEv.evJoin sock sid u role supplied uuid _ _ _ =>
    (jsOr role "student" == "teacher")
    || ((jsOr role "student" == "student")
        && ((sid == sessionId && toLowerStr (jsOr u "Anonymous") == lowu && S sock)
            || (sid == sessionId && !(toLowerStr (jsOr u "Anonymous") == lowu)
                && !(S sock)
                && generateStudentId (jsOr u "Anonymous") sid uuid != X)
            || (!(sid == sessionId)
                && generateStudentId (jsOr u "Anonymous") sid uuid != X
                && supplied != X)))
  | SEv.evSend _ _ _ _ _ _ _ => true
  | SEv.evDisc _ _ _ _ => true
  | SEv.evLeave _ _ _ _ _ _ _ => false

/-- … on top of `exSt2`, Bob joins the same session on Ana's own socket id
`"a1"` — a reused connection id, which Socket.IO never produces. -/
def reuseSt : ServerState :=
  (handleJoinRoom exSt2 "a1" "12345" "Bob" "student" "" "u2" "102" "mC" "TC").1

/-- Bob’s plain broadcast, for the stability trace. -/
def bobSend : SendData :=
  { sessionId := "12345", message := some exMsgPlain
    recipient := "", studentId := "" }

/-! ## General lemmas about the sort and the filters -/

theorem mem_insertByTs (x m : MessageRow) (l : List MessageRow) :
    x ∈ insertByTs m l ↔ x = m ∨ x ∈ l := by
  induction l with
  | nil => simp [insertByTs]
  | cons y ys ih =>
    simp only [insertByTs]
    split
    · simp only [List.mem_cons, ih]
      tauto
    · simp only [List.mem_cons]

theorem mem_sortByTs_go (l acc : List MessageRow) (x : MessageRow) :
    x ∈ l.foldl (fun a m => insertByTs m a) acc ↔ x ∈ acc ∨ x ∈ l := by
  induction l generalizing acc with
  | nil => simp
  | cons y ys ih =>
    rw [List.foldl_cons, ih, mem_insertByTs]
    simp only [List.mem_cons]
    tauto

theorem mem_sortByTs (x : MessageRow) (l : List MessageRow) :
    x ∈ sortByTs l ↔ x ∈ l := by
  rw [sortByTs, mem_sortByTs_go]
  simp

theorem insertByTs_eq_append (m : MessageRow) (l : List MessageRow)
    (h : ∀ x ∈ l, tsLe x.timestamp m.timestamp = true) :
    insertByTs m l = l ++ [m] := by
  induction l with
  | nil => rfl
  | cons y ys ih =>
    simp only [insertByTs]
    rw [if_pos (h y (by simp)), ih (fun x hx => h x (by simp [hx]))]
    rfl

theorem sortByTs_append_single (l : List MessageRow) (r : MessageRow) :
    sortByTs (l ++ [r]) = insertByTs r (sortByTs l) := by
  simp [sortByTs, List.foldl_append]

theorem sortByTs_eq_self (l : List MessageRow)
    (h : List.Pairwise (fun a b => tsLe a.timestamp b.timestamp = true) l) :
    sortByTs l = l := by
  induction l using List.reverseRecOn with
  | nil => rfl
  | append_singleton xs x ih =>
    rw [List.pairwise_append] at h
    rw [sortByTs_append_single, ih h.1, insertByTs_eq_append]
    intro y hy
    exact h.2.2 y hy x (by simp)

theorem studentRelevantB_iff (studentId : String) (r : MessageRow) :
    studentRelevantB studentId r = true ↔ specStudentVisible studentId r := by
  simp only [studentRelevantB, specStudentVisible, Bool.or_eq_true, Bool.and_eq_true,
    beq_iff_eq]
  tauto

theorem mem_getStudentRelevantMessages (db : List MessageRow)
    (sessionId studentId : String) (v : MessageView) :
    v ∈ getStudentRelevantMessages sessionId studentId db ↔
      ∃ r ∈ db, r.sessionId = sessionId ∧ studentRelevantB studentId r = true ∧ viewOf r = v := by
  unfold getStudentRelevantMessages
  rw [List.mem_map]
  constructor
  · rintro ⟨r, hr, rfl⟩
    rw [mem_sortByTs, List.mem_filter] at hr
    obtain ⟨hmem, hcond⟩ := hr
    rw [Bool.and_eq_true, beq_iff_eq] at hcond
    exact ⟨r, hmem, hcond.1, hcond.2, rfl⟩
  · rintro ⟨r, hmem, hsid, hb, rfl⟩
    refine ⟨r, ?_, rfl⟩
    rw [mem_sortByTs, List.mem_filter]
    refine ⟨hmem, ?_⟩
    rw [Bool.and_eq_true, beq_iff_eq]
    exact ⟨hsid, hb⟩

/-! ## Claim C1 -/

/-- C1, counterexample to the claim as stated: a stored teacher-role message
whose non-null recipient `"Y1"` differs from the student `"X1"` does appear
in `"X1"`'s filtered history, because `"X1"` is its sender (the `sender = ?`
disjunct fires first).  So "never contains a teacher-role message whose
non-null recipient differs from that student's persistent id" is false as
an unconditional statement. -/
theorem c1_counterexample :
    viewOf rowLeak ∈ getStudentRelevantMessages "s1" "X1" [rowLeak]
    ∧ (viewOf rowLeak).role = "teacher"
    ∧ (viewOf rowLeak).recipient = some "Y1"
    ∧ "Y1" ≠ "X1" := by
  decide

/-- C1 (amended): a stored message of the session is in the student's
filtered history iff it satisfies the spec's four visibility clauses
(broadcast system notification, own message, teacher message to the student
or broadcast, AI message to the student); in particular a teacher-role
message with a non-null recipient other than the student appears only when
the student is its sender, and a student-role message from any other sender
(apart from the literal AI sender) never appears. -/
theorem c1_amended_theorem (db : List MessageRow) (sessionId studentId : String)
    (v : MessageView) :
    (v ∈ getStudentRelevantMessages sessionId studentId db ↔
      ∃ r ∈ db, r.sessionId = sessionId ∧ specStudentVisible studentId r ∧ viewOf r = v)
    ∧ (∀ w ∈ getStudentRelevantMessages sessionId studentId db,
        (w.role = "teacher" → ∀ y, w.recipient = some y → y ≠ studentId →
          w.sender = studentId)
        ∧ (w.role = "student" → w.sender ≠ studentId → w.sender ≠ "ai-assistant" → False)) := by
  constructor
  · rw [mem_getStudentRelevantMessages]
    constructor
    · rintro ⟨r, hr, hsid, hb, hv⟩
      exact ⟨r, hr, hsid, (studentRelevantB_iff _ _).1 hb, hv⟩
    · rintro ⟨r, hr, hsid, hs, hv⟩
      exact ⟨r, hr, hsid, (studentRelevantB_iff _ _).2 hs, hv⟩
  · intro w hw
    rw [mem_getStudentRelevantMessages] at hw
    obtain ⟨r, _, _, hb, rfl⟩ := hw
    rw [studentRelevantB_iff] at hb
    unfold specStudentVisible at hb
    simp only [viewOf]
    constructor
    · intro hrole y hrec hy
      rcases hb with ⟨_, h2, _⟩ | h2 | ⟨_, h3⟩ | ⟨_, h4⟩
      · rw [hrole] at h2
        exact absurd h2 (by decide)
      · exact h2
      · rcases h3 with h3 | h3
        · rw [hrec] at h3
          exact absurd (Option.some.inj h3) hy
        · rw [hrec] at h3
          exact absurd h3 (by simp)
      · rw [hrec] at h4
        exact absurd (Option.some.inj h4) hy
    · intro hrole hsender hai
      rcases hb with ⟨_, h2, _⟩ | h2 | ⟨h3, _⟩ | ⟨h4, _⟩
      · rw [hrole] at h2
        exact absurd h2 (by decide)
      · exact hsender h2
      · rw [hrole] at h3
        exact absurd h3 (by decide)
      · exact hai h4

/-- C1, witness: the amended equivalence evaluated at concrete inputs — a
broadcast system notification is in the history, via the equivalence. -/
theorem c1_witness :
    viewOf rowNotice ∈ getStudentRelevantMessages "s1" "X1" [rowNotice] :=
  (c1_amended_theorem [rowNotice] "s1" "X1" (viewOf rowNotice)).1.mpr
    ⟨rowNotice, by simp, by decide, Or.inl (by decide), rfl⟩

/-! ## Claim C5 -/

/-- C5, counterexample to the claim as stated: a message whose id `"abc"`
has no underscore is persisted under a freshly generated id, so reloading
the session history does not return the same id field. -/
theorem c5_counterexample :
    (getSessionMessages "s1" [saveMessageRow "999_r8" msgNoUnderscore]).map
      (fun v => v.id) = ["999_r8"]
    ∧ msgNoUnderscore.id = "abc"
    ∧ "999_r8" ≠ "abc" := by
  decide

/-- C5 (amended): for a message whose id is non-empty and contains an
underscore and whose senderName/type/role fields are non-empty and whose
recipient is not the empty string, persisting it and reloading the session
history yields exactly the old history followed by a record with the same
id, sender, senderName, text, timestamp, type, role and recipient fields —
the new record last, the others in their previous relative order — provided
the new message's timestamp is not below those already stored for the
session. -/
theorem c5_amended_theorem (db : List MessageRow) (m : MessageIn) (regen : String)
    (hid : m.id ≠ "") (hidu : hasUnderscore m.id = true)
    (hsn : m.senderName ≠ "") (hty : m.type ≠ "") (hro : m.role ≠ "")
    (hrc : m.recipient ≠ some "")
    (hts : ∀ r ∈ db, r.sessionId = m.sessionId → tsLe r.timestamp m.timestamp = true) :
    getSessionMessages m.sessionId (db ++ [saveMessageRow regen m]) =
      getSessionMessages m.sessionId db ++
        [{ id := m.id, sender := m.sender, senderName := some m.senderName
           text := m.text, timestamp := m.timestamp, type := m.type, role := m.role
           recipient := m.recipient }] := by
  have hrow : saveMessageRow regen m =
      { id := m.id, sessionId := m.sessionId, sender := m.sender
        senderName := some m.senderName, text := m.text, timestamp := m.timestamp
        type := m.type, role := m.role, recipient := m.recipient } := by
    cases hm : m.recipient with
    | none =>
      simp [saveMessageRow, jsStrOrNone, jsOr, jsOptOrNone, hid, hidu, hsn, hty, hro, hm]
    | some s =>
      have hs : s ≠ "" := by
        intro h
        exact hrc (by rw [hm, h])
      simp [saveMessageRow, jsStrOrNone, jsOr, jsOptOrNone, hid, hidu, hsn, hty, hro, hm, hs]
  rw [hrow]
  unfold getSessionMessages
  rw [List.filter_append]
  have hone : List.filter (fun r => r.sessionId == m.sessionId)
      [({ id := m.id, sessionId := m.sessionId, sender := m.sender
          senderName := some m.senderName, text := m.text, timestamp := m.timestamp
          type := m.type, role := m.role, recipient := m.recipient } : MessageRow)] =
      [{ id := m.id, sessionId := m.sessionId, sender := m.sender
         senderName := some m.senderName, text := m.text, timestamp := m.timestamp
         type := m.type, role := m.role, recipient := m.recipient }] := by
    simp [List.filter]
  rw [hone, sortByTs_append_single, insertByTs_eq_append]
  · rw [List.map_append]
    rfl
  · intro x hx
    rw [mem_sortByTs, List.mem_filter] at hx
    exact hts x hx.1 (by
      have := hx.2
      rwa [beq_iff_eq] at this)

/-- C5, witness: the amended round-trip evaluated at a concrete well-formed
message over a one-row table. -/
theorem c5_witness :
    getSessionMessages "s1" ([rowNotice] ++ [saveMessageRow "999_r9" msgGood]) =
      getSessionMessages "s1" [rowNotice] ++
        [{ id := "1700_aa", sender := "X1", senderName := some "Ana"
           text := "hello", timestamp := "T3", type := "message", role := "student"
           recipient := some "R1" }] :=
  c5_amended_theorem [rowNotice] msgGood "999_r9" (by decide) (by decide) (by decide)
    (by decide) (by decide) (by decide) (by decide)

/-! ## Claim C6 -/

/-- C6: when a session's cache entry (history or roster) is non-empty,
`loadChatHistory`/`loadStudents` return it and leave the state unchanged;
when it is empty, the result is hydrated from storage. -/
theorem c6_theorem (st : ServerState) (sessionId : String) :
    (chatCacheOf st sessionId ≠ [] →
      loadChatHistory st sessionId = (chatCacheOf st sessionId, st))
    ∧ (roomStudentsOf st sessionId ≠ [] →
      loadStudents st sessionId = (roomStudentsOf st sessionId, st))
    ∧ (chatCacheOf st sessionId = [] →
      (loadChatHistory st sessionId).1 = getSessionMessages sessionId st.dbMessages)
    ∧ (roomStudentsOf st sessionId = [] →
      (loadStudents st sessionId).1 = getSessionStudents sessionId st.dbStudents) := by
  refine ⟨?_, ?_, ?_, ?_⟩ <;> intro h <;> simp [loadChatHistory, loadStudents, h]

/-- C6, witness: at a state with non-empty caches for session `"s1"`, both
loaders return the cached entries and leave the state unchanged. -/
theorem c6_witness :
    loadChatHistory c6St "s1" = (chatCacheOf c6St "s1", c6St)
    ∧ loadStudents c6St "s1" = (roomStudentsOf c6St "s1", c6St) :=
  ⟨(c6_theorem c6St "s1").1 (by decide), (c6_theorem c6St "s1").2.1 (by decide)⟩

/-! ## Claim C7 -/

/-- C7, counterexample to the claim as stated: a storage error during
hydration does not propagate to `loadChatHistory`'s caller — the adapter's
own catch returns `[]`, so hydration completes successfully with an empty
history (exactly as for an empty session) and no join-failed condition can
arise from it. -/
theorem c7_counterexample :
    loadChatHistoryT [] (Except.error ("disk failure")) "12345" = Except.ok ([], [])
    ∧ loadChatHistoryT [] (Except.error ("disk failure")) "12345"
      = loadChatHistoryT [] (Except.ok []) "12345" := by
  constructor <;> rfl

/-- C7 (amended): a storage error during hydration is caught inside the
store adapter, which returns `[]`; the load completes without error, the
cache entry is set to `[]` — which the emptiness guard treats as absent, so
the next call re-queries storage (no negative caching of failures). -/
theorem c7_amended_theorem (e sessionId : String) (rows : List MessageRow) :
    loadChatHistoryT [] (Except.error e) sessionId = Except.ok ([], [])
    ∧ loadChatHistoryT [] (Except.ok rows) sessionId =
        Except.ok (getSessionMessages sessionId rows, getSessionMessages sessionId rows)
    ∧ getSessionMessagesT (Except.error e) sessionId = []
    ∧ getSessionStudentsT (Except.error e) sessionId = [] := by
  refine ⟨?_, ?_, rfl, rfl⟩ <;> simp [loadChatHistoryT, getSessionMessagesT]

/-! ## Order, lookup and projection infrastructure -/

theorem listLe_trans : ∀ a b c : List Char,
    listLe a b = true → listLe b c = true → listLe a c = true := by
  intro a
  induction a with
  | nil =>
    intro b c _ _
    rfl
  | cons x xs ih =>
    intro b c h1 h2
    cases b with
    | nil => simp [listLe] at h1
    | cons y ys =>
      cases c with
      | nil => simp [listLe] at h2
      | cons z zs =>
        simp only [listLe] at h1 h2 ⊢
        by_cases hxy : x.toNat < y.toNat
        · by_cases hyz : y.toNat < z.toNat
          · rw [if_pos (by omega)]
          · by_cases hzy : z.toNat < y.toNat
            · rw [if_neg hyz, if_pos hzy] at h2
              exact absurd h2 (by decide)
            · rw [if_pos (by omega)]
        · by_cases hyx : y.toNat < x.toNat
          · rw [if_neg hxy, if_pos hyx] at h1
            exact absurd h1 (by decide)
          · rw [if_neg hxy, if_neg hyx] at h1
            by_cases hyz : y.toNat < z.toNat
            · rw [if_pos (by omega)]
            · by_cases hzy : z.toNat < y.toNat
              · rw [if_neg hyz, if_pos hzy] at h2
                exact absurd h2 (by decide)
              · rw [if_neg hyz, if_neg hzy] at h2
                rw [if_neg (by omega), if_neg (by omega)]
                exact ih ys zs h1 h2

theorem tsLe_trans (a b c : String) (h1 : tsLe a b = true) (h2 : tsLe b c = true) :
    tsLe a c = true :=
  listLe_trans a.data b.data c.data h1 h2

theorem alookup_cons {α : Type} (p : String × α) (l : List (String × α)) (k : String) :
    alookup (p :: l) k = if p.1 = k then some p.2 else alookup l k := by
  by_cases h : p.1 = k
  · have hb : (p.1 == k) = true := by simp [h]
    unfold alookup
    rw [List.find?_cons, hb]
    simp [h]
  · have hb : (p.1 == k) = false := by simp [h]
    unfold alookup
    rw [List.find?_cons, hb]
    simp [h]

theorem alookup_aset_self {α : Type} (l : List (String × α)) (k : String) (v : α) :
    alookup (aset l k v) k = some v := by
  induction l with
  | nil => simp [aset, alookup_cons]
  | cons p l ih =>
    by_cases h : p.1 = k
    · simp [aset, h, alookup_cons]
    · simp only [aset, if_neg h]
      rw [alookup_cons, if_neg h]
      exact ih

theorem alookup_aset_ne {α : Type} (l : List (String × α)) (k k' : String) (v : α)
    (h : k' ≠ k) :
    alookup (aset l k v) k' = alookup l k' := by
  induction l with
  | nil => simp [aset, alookup_cons, Ne.symm h]
  | cons p l ih =>
    by_cases hp : p.1 = k
    · rw [aset, if_pos hp, alookup_cons, alookup_cons, if_neg (Ne.symm h)]
      rw [if_neg (by rw [hp]; exact Ne.symm h)]
    · rw [aset, if_neg hp, alookup_cons, alookup_cons, ih]

theorem alookup_aremove_self {α : Type} (l : List (String × α)) (k : String) :
    alookup (aremove l k) k = none := by
  induction l with
  | nil => rfl
  | cons p l ih =>
    by_cases hp : p.1 = k
    · have hb : decide (p.1 ≠ k) = false := by simp [hp]
      rw [aremove, List.filter_cons, hb, if_neg (by decide : ¬(false = true))]
      simpa [aremove] using ih
    · have hb : decide (p.1 ≠ k) = true := by simp [hp]
      rw [aremove, List.filter_cons, hb, if_pos (rfl : true = true), alookup_cons, if_neg hp]
      simpa [aremove] using ih

theorem alookup_aremove_ne {α : Type} (l : List (String × α)) (k k' : String)
    (h : k' ≠ k) :
    alookup (aremove l k) k' = alookup l k' := by
  induction l with
  | nil => rfl
  | cons p l ih =>
    by_cases hp : p.1 = k
    · have hb : decide (p.1 ≠ k) = false := by simp [hp]
      rw [aremove, List.filter_cons, hb, if_neg (by decide : ¬(false = true)), alookup_cons]
      rw [if_neg (by rw [hp]; exact Ne.symm h)]
      simpa [aremove] using ih
    · have hb : decide (p.1 ≠ k) = true := by simp [hp]
      rw [aremove, List.filter_cons, hb, if_pos (rfl : true = true), alookup_cons, alookup_cons]
      by_cases hpk : p.1 = k'
      · rw [if_pos hpk, if_pos hpk]
      · rw [if_neg hpk, if_neg hpk]
        simpa [aremove] using ih

@[simp] theorem addMessageToCache_dbSessions (st : ServerState) (m : MessageIn) :
    (addMessageToCache st m).dbSessions = st.dbSessions := rfl

@[simp] theorem addMessageToCache_dbMessages (st : ServerState) (m : MessageIn) :
    (addMessageToCache st m).dbMessages = st.dbMessages := rfl

@[simp] theorem addMessageToCache_dbStudents (st : ServerState) (m : MessageIn) :
    (addMessageToCache st m).dbStudents = st.dbStudents := rfl

@[simp] theorem addMessageToCache_roomStudents (st : ServerState) (m : MessageIn) :
    (addMessageToCache st m).roomStudents = st.roomStudents := rfl

@[simp] theorem addMessageToCache_roomTeachers (st : ServerState) (m : MessageIn) :
    (addMessageToCache st m).roomTeachers = st.roomTeachers := rfl

@[simp] theorem addMessageToCache_socketData (st : ServerState) (m : MessageIn) :
    (addMessageToCache st m).socketData = st.socketData := rfl

@[simp] theorem updateStudentInCache_dbSessions (st : ServerState) (sid : String) (s : StudentRec) :
    (updateStudentInCache st sid s).dbSessions = st.dbSessions := rfl

@[simp] theorem updateStudentInCache_dbMessages (st : ServerState) (sid : String) (s : StudentRec) :
    (updateStudentInCache st sid s).dbMessages = st.dbMessages := rfl

@[simp] theorem updateStudentInCache_dbStudents (st : ServerState) (sid : String) (s : StudentRec) :
    (updateStudentInCache st sid s).dbStudents = st.dbStudents := rfl

@[simp] theorem updateStudentInCache_chatCache (st : ServerState) (sid : String) (s : StudentRec) :
    (updateStudentInCache st sid s).chatCache = st.chatCache := rfl

@[simp] theorem updateStudentInCache_roomTeachers (st : ServerState) (sid : String) (s : StudentRec) :
    (updateStudentInCache st sid s).roomTeachers = st.roomTeachers := rfl

@[simp] theorem updateStudentInCache_socketData (st : ServerState) (sid : String) (s : StudentRec) :
    (updateStudentInCache st sid s).socketData = st.socketData := rfl

@[simp] theorem removeStudentFromCache_dbSessions (st : ServerState) (sid a b : String) :
    (removeStudentFromCache st sid a b).dbSessions = st.dbSessions := rfl

@[simp] theorem removeStudentFromCache_dbMessages (st : ServerState) (sid a b : String) :
    (removeStudentFromCache st sid a b).dbMessages = st.dbMessages := rfl

@[simp] theorem removeStudentFromCache_dbStudents (st : ServerState) (sid a b : String) :
    (removeStudentFromCache st sid a b).dbStudents = st.dbStudents := rfl

@[simp] theorem removeStudentFromCache_chatCache (st : ServerState) (sid a b : String) :
    (removeStudentFromCache st sid a b).chatCache = st.chatCache := rfl

@[simp] theorem removeStudentFromCache_roomTeachers (st : ServerState) (sid a b : String) :
    (removeStudentFromCache st sid a b).roomTeachers = st.roomTeachers := rfl

@[simp] theorem removeStudentFromCache_socketData (st : ServerState) (sid a b : String) :
    (removeStudentFromCache st sid a b).socketData = st.socketData := rfl

@[simp] theorem setTeacherSocketId_dbSessions (st : ServerState) (sid a : String) :
    (setTeacherSocketId st sid a).dbSessions = st.dbSessions := rfl

@[simp] theorem setTeacherSocketId_dbMessages (st : ServerState) (sid a : String) :
    (setTeacherSocketId st sid a).dbMessages = st.dbMessages := rfl

@[simp] theorem setTeacherSocketId_dbStudents (st : ServerState) (sid a : String) :
    (setTeacherSocketId st sid a).dbStudents = st.dbStudents := rfl

@[simp] theorem setTeacherSocketId_chatCache (st : ServerState) (sid a : String) :
    (setTeacherSocketId st sid a).chatCache = st.chatCache := rfl

@[simp] theorem setTeacherSocketId_roomStudents (st : ServerState) (sid a : String) :
    (setTeacherSocketId st sid a).roomStudents = st.roomStudents := rfl

@[simp] theorem setTeacherSocketId_socketData (st : ServerState) (sid a : String) :
    (setTeacherSocketId st sid a).socketData = st.socketData := rfl

@[simp] theorem removeTeacherSocketId_dbSessions (st : ServerState) (sid : String) :
    (removeTeacherSocketId st sid).dbSessions = st.dbSessions := rfl

@[simp] theorem removeTeacherSocketId_dbMessages (st : ServerState) (sid : String) :
    (removeTeacherSocketId st sid).dbMessages = st.dbMessages := rfl

@[simp] theorem removeTeacherSocketId_dbStudents (st : ServerState) (sid : String) :
    (removeTeacherSocketId st sid).dbStudents = st.dbStudents := rfl

@[simp] theorem removeTeacherSocketId_chatCache (st : ServerState) (sid : String) :
    (removeTeacherSocketId st sid).chatCache = st.chatCache := rfl

@[simp] theorem removeTeacherSocketId_roomStudents (st : ServerState) (sid : String) :
    (removeTeacherSocketId st sid).roomStudents = st.roomStudents := rfl

@[simp] theorem removeTeacherSocketId_socketData (st : ServerState) (sid : String) :
    (removeTeacherSocketId st sid).socketData = st.socketData := rfl

@[simp] theorem ensureSessionExists_dbMessages (st : ServerState) (sid : String) :
    (ensureSessionExists st sid).dbMessages = st.dbMessages := by
  unfold ensureSessionExists
  split <;> rfl

@[simp] theorem ensureSessionExists_dbStudents (st : ServerState) (sid : String) :
    (ensureSessionExists st sid).dbStudents = st.dbStudents := by
  unfold ensureSessionExists
  split <;> rfl

@[simp] theorem ensureSessionExists_chatCache (st : ServerState) (sid : String) :
    (ensureSessionExists st sid).chatCache = st.chatCache := by
  unfold ensureSessionExists
  split <;> rfl

@[simp] theorem ensureSessionExists_roomStudents (st : ServerState) (sid : String) :
    (ensureSessionExists st sid).roomStudents = st.roomStudents := by
  unfold ensureSessionExists
  split <;> rfl

@[simp] theorem ensureSessionExists_roomTeachers (st : ServerState) (sid : String) :
    (ensureSessionExists st sid).roomTeachers = st.roomTeachers := by
  unfold ensureSessionExists
  split <;> rfl

@[simp] theorem ensureSessionExists_socketData (st : ServerState) (sid : String) :
    (ensureSessionExists st sid).socketData = st.socketData := by
  unfold ensureSessionExists
  split <;> rfl

@[simp] theorem loadChatHistory_fst (st : ServerState) (sid : String) :
    (loadChatHistory st sid).1 = hydratedHistory st sid := by
  simp only [loadChatHistory, hydratedHistory]
  split <;> rfl

@[simp] theorem loadChatHistory_snd_dbSessions (st : ServerState) (sid : String) :
    (loadChatHistory st sid).2.dbSessions = st.dbSessions := by
  simp only [loadChatHistory]
  split <;> rfl

@[simp] theorem loadChatHistory_snd_dbMessages (st : ServerState) (sid : String) :
    (loadChatHistory st sid).2.dbMessages = st.dbMessages := by
  simp only [loadChatHistory]
  split <;> rfl

@[simp] theorem loadChatHistory_snd_dbStudents (st : ServerState) (sid : String) :
    (loadChatHistory st sid).2.dbStudents = st.dbStudents := by
  simp only [loadChatHistory]
  split <;> rfl

@[simp] theorem loadChatHistory_snd_roomStudents (st : ServerState) (sid : String) :
    (loadChatHistory st sid).2.roomStudents = st.roomStudents := by
  simp only [loadChatHistory]
  split <;> rfl

@[simp] theorem loadChatHistory_snd_roomTeachers (st : ServerState) (sid : String) :
    (loadChatHistory st sid).2.roomTeachers = st.roomTeachers := by
  simp only [loadChatHistory]
  split <;> rfl

@[simp] theorem loadChatHistory_snd_socketData (st : ServerState) (sid : String) :
    (loadChatHistory st sid).2.socketData = st.socketData := by
  simp only [loadChatHistory]
  split <;> rfl

@[simp] theorem loadStudents_fst (st : ServerState) (sid : String) :
    (loadStudents st sid).1 = hydratedStudents st sid := by
  simp only [loadStudents, hydratedStudents]
  split <;> rfl

@[simp] theorem loadStudents_snd_dbSessions (st : ServerState) (sid : String) :
    (loadStudents st sid).2.dbSessions = st.dbSessions := by
  simp only [loadStudents]
  split <;> rfl

@[simp] theorem loadStudents_snd_dbMessages (st : ServerState) (sid : String) :
    (loadStudents st sid).2.dbMessages = st.dbMessages := by
  simp only [loadStudents]
  split <;> rfl

@[simp] theorem loadStudents_snd_dbStudents (st : ServerState) (sid : String) :
    (loadStudents st sid).2.dbStudents = st.dbStudents := by
  simp only [loadStudents]
  split <;> rfl

@[simp] theorem loadStudents_snd_chatCache (st : ServerState) (sid : String) :
    (loadStudents st sid).2.chatCache = st.chatCache := by
  simp only [loadStudents]
  split <;> rfl

@[simp] theorem loadStudents_snd_roomTeachers (st : ServerState) (sid : String) :
    (loadStudents st sid).2.roomTeachers = st.roomTeachers := by
  simp only [loadStudents]
  split <;> rfl

@[simp] theorem loadStudents_snd_socketData (st : ServerState) (sid : String) :
    (loadStudents st sid).2.socketData = st.socketData := by
  simp only [loadStudents]
  split <;> rfl

theorem chatCacheOf_eq (st : ServerState) (sid : String) :
    chatCacheOf st sid = (alookup st.chatCache sid).getD [] := rfl

theorem chatCacheOf_addMessageToCache (st : ServerState) (m : MessageIn) (sid : String) :
    chatCacheOf (addMessageToCache st m) sid =
      if sid = m.sessionId then chatCacheOf st m.sessionId ++ [cacheViewOf m]
      else chatCacheOf st sid := by
  by_cases h : sid = m.sessionId
  · rw [if_pos h, h, chatCacheOf_eq]
    show (alookup (aset st.chatCache m.sessionId
      (chatCacheOf st m.sessionId ++ [cacheViewOf m])) m.sessionId).getD []
      = chatCacheOf st m.sessionId ++ [cacheViewOf m]
    rw [alookup_aset_self]
    rfl
  · rw [if_neg h, chatCacheOf_eq, chatCacheOf_eq]
    show (alookup (aset st.chatCache m.sessionId (chatCacheOf st m.sessionId ++ [cacheViewOf m]))
      sid).getD [] = (alookup st.chatCache sid).getD []
    rw [alookup_aset_ne _ _ _ _ h]

theorem roomStudentsOf_eq (st : ServerState) (sid : String) :
    roomStudentsOf st sid = (alookup st.roomStudents sid).getD [] := rfl

theorem roomStudentsOf_updateStudentInCache (st : ServerState) (sid : String)
    (s : StudentRec) (sid' : String) :
    roomStudentsOf (updateStudentInCache st sid s) sid' =
      if sid' = sid then updateList (roomStudentsOf st sid) s
      else roomStudentsOf st sid' := by
  by_cases h : sid' = sid
  · rw [if_pos h, h, roomStudentsOf_eq]
    show (alookup (aset st.roomStudents sid (updateList (roomStudentsOf st sid) s))
      sid).getD [] = updateList (roomStudentsOf st sid) s
    rw [alookup_aset_self]
    rfl
  · rw [if_neg h, roomStudentsOf_eq, roomStudentsOf_eq]
    show (alookup (aset st.roomStudents sid (updateList (roomStudentsOf st sid) s))
      sid').getD [] = (alookup st.roomStudents sid').getD []
    rw [alookup_aset_ne _ _ _ _ h]

theorem roomStudentsOf_removeStudentFromCache (st : ServerState) (sid a b : String)
    (sid' : String) :
    roomStudentsOf (removeStudentFromCache st sid a b) sid' =
      if sid' = sid then
        (roomStudentsOf st sid).filter (fun s =>
          (a ≠ "" && s.persistentId ≠ a) || (b ≠ "" && s.id ≠ b))
      else roomStudentsOf st sid' := by
  by_cases h : sid' = sid
  · rw [if_pos h, h, roomStudentsOf_eq]
    show (alookup (aset st.roomStudents sid
      ((roomStudentsOf st sid).filter (fun s =>
        (a ≠ "" && s.persistentId ≠ a) || (b ≠ "" && s.id ≠ b)))) sid).getD [] = _
    rw [alookup_aset_self]
    rfl
  · rw [if_neg h, roomStudentsOf_eq, roomStudentsOf_eq]
    show (alookup (aset st.roomStudents sid
      ((roomStudentsOf st sid).filter (fun s =>
        (a ≠ "" && s.persistentId ≠ a) || (b ≠ "" && s.id ≠ b)))) sid').getD [] =
      (alookup st.roomStudents sid').getD []
    rw [alookup_aset_ne _ _ _ _ h]

theorem getTeacherSocketId_setTeacherSocketId (st : ServerState) (sid a sid' : String) :
    getTeacherSocketId (setTeacherSocketId st sid a) sid' =
      if sid' = sid then some a else getTeacherSocketId st sid' := by
  by_cases h : sid' = sid
  · rw [if_pos h, h]
    exact alookup_aset_self st.roomTeachers sid a
  · rw [if_neg h]
    exact alookup_aset_ne st.roomTeachers sid sid' a h

theorem getTeacherSocketId_removeTeacherSocketId (st : ServerState) (sid sid' : String) :
    getTeacherSocketId (removeTeacherSocketId st sid) sid' =
      if sid' = sid then none else getTeacherSocketId st sid' := by
  by_cases h : sid' = sid
  · rw [if_pos h, h]
    exact alookup_aremove_self st.roomTeachers sid
  · rw [if_neg h]
    exact alookup_aremove_ne st.roomTeachers sid sid' h

theorem chatCacheOf_loadChatHistory (st : ServerState) (sid sid' : String) :
    chatCacheOf (loadChatHistory st sid).2 sid' =
      if sid' = sid then hydratedHistory st sid else chatCacheOf st sid' := by
  by_cases hc : chatCacheOf st sid ≠ []
  · have h2 : (loadChatHistory st sid).2 = st := by
      simp only [loadChatHistory, if_pos hc]
    rw [h2, hydratedHistory, if_pos hc]
    by_cases h : sid' = sid
    · rw [if_pos h, h]
    · rw [if_neg h]
  · have h2 : (loadChatHistory st sid).2 =
        { st with chatCache := (aset st.chatCache sid (getSessionMessages sid st.dbMessages)) } := by
      simp only [loadChatHistory, if_neg hc]
    rw [h2, hydratedHistory, if_neg hc]
    by_cases h : sid' = sid
    · rw [if_pos h, h, chatCacheOf_eq]
      show (alookup (aset st.chatCache sid (getSessionMessages sid st.dbMessages)) sid).getD []
        = getSessionMessages sid st.dbMessages
      rw [alookup_aset_self]
      rfl
    · rw [if_neg h, chatCacheOf_eq, chatCacheOf_eq]
      show (alookup (aset st.chatCache sid (getSessionMessages sid st.dbMessages)) sid').getD []
        = (alookup st.chatCache sid').getD []
      rw [alookup_aset_ne _ _ _ _ h]

theorem roomStudentsOf_loadStudents (st : ServerState) (sid sid' : String) :
    roomStudentsOf (loadStudents st sid).2 sid' =
      if sid' = sid then hydratedStudents st sid else roomStudentsOf st sid' := by
  by_cases hc : roomStudentsOf st sid ≠ []
  · have h2 : (loadStudents st sid).2 = st := by
      simp only [loadStudents, if_pos hc]
    rw [h2, hydratedStudents, if_pos hc]
    by_cases h : sid' = sid
    · rw [if_pos h, h]
    · rw [if_neg h]
  · have h2 : (loadStudents st sid).2 =
        { st with roomStudents := (aset st.roomStudents sid (getSessionStudents sid st.dbStudents)) } := by
      simp only [loadStudents, if_neg hc]
    rw [h2, hydratedStudents, if_neg hc]
    by_cases h : sid' = sid
    · rw [if_pos h, h, roomStudentsOf_eq]
      show (alookup (aset st.roomStudents sid (getSessionStudents sid st.dbStudents)) sid).getD []
        = getSessionStudents sid st.dbStudents
      rw [alookup_aset_self]
      rfl
    · rw [if_neg h, roomStudentsOf_eq, roomStudentsOf_eq]
      show (alookup (aset st.roomStudents sid (getSessionStudents sid st.dbStudents)) sid').getD []
        = (alookup st.roomStudents sid').getD []
      rw [alookup_aset_ne _ _ _ _ h]

/-! ## Claim C2 -/

/-- C2: when no student in the resolver's view matches the username
case-insensitively and the supplied id is stored in the session under a
username that differs case-insensitively, the resolver returns the freshly
generated id — which, the generated id being new to the table, is never the
supplied mismatched id. -/
theorem c2_theorem (students db : List StudentRec)
    (sessionId username suppliedId uuid : String)
    (hname : ∀ s ∈ students, toLowerStr s.username ≠ toLowerStr username)
    (hsup : suppliedId ≠ "")
    (ex : StudentRec) (hfind : findStudent db sessionId suppliedId "" = some ex)
    (hmis : toLowerStr ex.username ≠ toLowerStr username)
    (hfresh : ∀ r ∈ db, generateStudentId username sessionId uuid ≠ r.persistentId) :
    resolveStudentId students db sessionId username suppliedId uuid =
      generateStudentId username sessionId uuid
    ∧ generateStudentId username sessionId uuid ≠ suppliedId := by
  have hnone : students.find? (fun s => toLowerStr s.username == toLowerStr username) = none := by
    rw [List.find?_eq_none]
    intro s hs
    simp only [beq_iff_eq]
    exact hname s hs
  have hfind' : db.find? (fun r => r.sessionId == sessionId && r.persistentId == suppliedId)
      = some ex := by
    rw [findStudent, if_pos hsup] at hfind
    exact hfind
  have hmem : ex ∈ db := List.mem_of_find?_eq_some hfind'
  have hp := List.find?_some hfind'
  rw [Bool.and_eq_true, beq_iff_eq, beq_iff_eq] at hp
  constructor
  · rw [resolveStudentId, hnone]
    dsimp only
    rw [if_neg hsup, hfind]
    dsimp only
    rw [if_pos hmis]
  · intro hEq
    exact hfresh ex hmem (by rw [hEq, hp.2])

/-- C2, witness: with Bob cached, the supplied id `"sup_1"` stored under
`"Zoe"`, and joining username `"Ana"`, the resolver generates a fresh id
distinct from the supplied one. -/
theorem c2_witness :
    resolveStudentId [recBob] [recZoe] "s1" "Ana" "sup_1" "u7" =
      generateStudentId "Ana" "s1" "u7"
    ∧ generateStudentId "Ana" "s1" "u7" ≠ "sup_1" :=
  c2_theorem [recBob] [recZoe] "s1" "Ana" "sup_1" "u7" (by decide) (by decide)
    recZoe (by decide) (by decide) (by decide)

theorem jsOr_of_ne (a b : String) (h : a ≠ "") : jsOr a b = a := by
  simp [jsOr, h]

theorem jsOr_empty (b : String) : jsOr "" b = b := by
  simp [jsOr]

/-- A valid `send_message` always appends exactly its formatted row to the
messages table, whatever the dispatch branch does afterwards. -/
theorem handleSendMessage_valid_dbMessages (st : ServerState) (sockId : String)
    (d : SendData) (p : MsgPayload) (g1 g2 r1 r2 now : String)
    (hsid : d.sessionId ≠ "") (hmsg : d.message = some p) :
    (handleSendMessage st sockId (some d) g1 g2 r1 r2 now).1.dbMessages =
      st.dbMessages ++ [sentRow st sockId d p g1 g2 r1 r2 now] := by
  simp only [handleSendMessage]
  rw [if_neg hsid, hmsg]
  dsimp only
  repeat' split
  all_goals simp

/-! ## Claim C10 -/

/-- C10: `formatMessage` takes the client-supplied `message.role` whenever
it is present (non-empty), regardless of the connection's session role —
the state `st` and hence the sender's `userData` are arbitrary here; and a
payload claiming role `teacher` with no recipient persists a broadcast
teacher-role row that the student visibility filter accepts for every
student id. -/
theorem c10_theorem (st : ServerState) (sockId : String) (d : SendData) (p : MsgPayload)
    (g1 g2 r1 r2 now : String)
    (hsid : d.sessionId ≠ "") (hmsg : d.message = some p) (hrole : p.role ≠ "") :
    (handleSendMessage st sockId (some d) g1 g2 r1 r2 now).1.dbMessages =
      st.dbMessages ++ [sentRow st sockId d p g1 g2 r1 r2 now]
    ∧ (sentRow st sockId d p g1 g2 r1 r2 now).role = p.role
    ∧ (p.role = "teacher" → d.recipient = "" →
        (sentRow st sockId d p g1 g2 r1 r2 now).recipient = none
        ∧ ∀ X, studentRelevantB X (sentRow st sockId d p g1 g2 r1 r2 now) = true) := by
  have hr : (sentRow st sockId d p g1 g2 r1 r2 now).role = p.role := by
    show (saveMessageRow _ _).role = p.role
    simp only [saveMessageRow, formatMessage]
    rw [jsOr_of_ne p.role _ hrole, jsOr_of_ne p.role _ hrole]
  refine ⟨handleSendMessage_valid_dbMessages st sockId d p g1 g2 r1 r2 now hsid hmsg,
    hr, ?_⟩
  intro hteach hrec
  have hrcp : (sentRow st sockId d p g1 g2 r1 r2 now).recipient = none := by
    show (saveMessageRow _ _).recipient = none
    simp [saveMessageRow, formatMessage, jsStrOrNone, jsOptOrNone, hrec]
  refine ⟨hrcp, ?_⟩
  intro X
  have hrT : (sentRow st sockId d p g1 g2 r1 r2 now).role = "teacher" := by
    rw [hr, hteach]
  simp [studentRelevantB, hrT, hrcp]

/-- C10, witness: from Ana's student connection, a payload with
`message.role = "teacher"` and no recipient persists a teacher-role
broadcast row that the filter accepts for every student (here `"Y9"`). -/
theorem c10_witness :
    (handleSendMessage exSt2 "a1" (some exSendForge) "110" "g3" "111" "g4" "TF").1.dbMessages =
      exSt2.dbMessages ++ [sentRow exSt2 "a1" exSendForge exMsgForge "110" "g3" "111" "g4" "TF"]
    ∧ (sentRow exSt2 "a1" exSendForge exMsgForge "110" "g3" "111" "g4" "TF").role = "teacher"
    ∧ studentRelevantB "Y9" (sentRow exSt2 "a1" exSendForge exMsgForge "110" "g3" "111" "g4" "TF")
      = true := by
  have h := c10_theorem exSt2 "a1" exSendForge exMsgForge "110" "g3" "111" "g4" "TF"
    (by decide) (by decide) (by decide)
  exact ⟨h.1, h.2.1, (h.2.2 (by decide) (by decide)).2 "Y9"⟩

/-! ## Claim C8 -/

/-- C8, counterexample to the claim as stated: the teacher `"t1"` sends a
payload whose `message.role` is `"ai"` to connected student Ana; the claim
quantifies over every teacher send with a connected recipient, but here the
AI dispatch branch fires and Ana's copy keeps the raw sender `"t1"` instead
of the `"teacher"` label. -/
theorem c8_counterexample :
    (messageEmits (handleSendMessage exSt2 "t1" (some exSendAi) "110" "g3" "111" "g4" "TE").2).map
      (fun q => (q.1, q.2.sender)) =
      [(Target.sock "t1", "t1"), (Target.sock "a1", "t1")]
    ∧ "t1" ≠ "teacher" := by
  decide

/-- C8 (amended): for a send from a teacher-role connection with a recipient
naming a cached student, provided the payload does not claim role `"ai"`
and the teacher's socket id is not the literal AI sender, exactly two
`message` events are emitted: the student's copy with the sender overwritten
to `"teacher"`, and the teacher's own copy unmodified, whose sender is the
teacher's raw connection id. -/
theorem c8_amended_theorem (st : ServerState) (sockId : String) (d : SendData)
    (p : MsgPayload) (g1 g2 r1 r2 now : String) (u : UserData) (s : StudentRec)
    (hud : alookup st.socketData sockId = some u) (hrole : u.role = "teacher")
    (hsid : d.sessionId ≠ "") (hmsg : d.message = some p)
    (hrec : d.recipient ≠ "")
    (hpnotai : jsOr p.role "teacher" ≠ "ai")
    (hsock : sockId ≠ "ai-assistant")
    (hfind : findStudentInCache st d.sessionId d.recipient "" = some s) :
    messageEmits (handleSendMessage st sockId (some d) g1 g2 r1 r2 now).2 =
      [(Target.sock s.id,
        { sentMut st sockId d p g1 g2 r1 r2 now with sender := "teacher" }),
       (Target.sock sockId, sentMut st sockId d p g1 g2 r1 r2 now)]
    ∧ (sentMut st sockId d p g1 g2 r1 r2 now).sender = sockId := by
  have hur : sendUserRole st sockId = "teacher" := by
    rw [sendUserRole, hud]
    dsimp only
    rw [hrole]
    decide
  have hsend : sendSenderId st sockId d = sockId := by
    rw [sendSenderId, hur]
    rw [if_neg (by simp)]
  have hmutrole : (sentMut st sockId d p g1 g2 r1 r2 now).role = jsOr p.role "teacher" := by
    simp [sentMut, formatMessage, sendSenderInfo, hur]
  have hmutsender : (sentMut st sockId d p g1 g2 r1 r2 now).sender = sockId := by
    simp [sentMut, formatMessage, sendSenderInfo, hsend]
  refine ⟨?_, hmutsender⟩
  simp only [handleSendMessage]
  rw [if_neg hsid, hmsg]
  dsimp only
  rw [hud]
  dsimp only
  have hnotai2 : ¬((sentMut st sockId d p g1 g2 r1 r2 now).role = "ai"
      ∨ (sentMut st sockId d p g1 g2 r1 r2 now).sender = "ai-assistant") := by
    intro hor
    rcases hor with h | h
    · rw [hmutrole] at h
      exact hpnotai h
    · rw [hmutsender] at h
      exact hsock h
  rw [if_neg hnotai2]
  rw [hur]
  rw [if_pos (⟨rfl, hrec⟩ : ("teacher" : String) = "teacher" ∧ d.recipient ≠ "")]
  have hfind2 : findStudentInCache
      (addMessageToCache
        { st with dbMessages :=
            (st.dbMessages ++ [sentRow st sockId d p g1 g2 r1 r2 now]) }
        (sentMut st sockId d p g1 g2 r1 r2 now))
      d.sessionId d.recipient "" = some s := by
    rw [findStudentInCache, roomStudentsOf_eq, addMessageToCache_roomStudents]
    exact hfind
  rw [hfind2]
  dsimp only
  rw [if_neg (by decide : ¬(("teacher" : String) = "student"))]
  simp [messageEmits]

/-- C8, witness: the amended theorem evaluated for teacher `"t1"` sending a
plain payload to Ana's persistent id — two message events, Ana's with
sender `"teacher"`, the teacher's own with the raw socket id `"t1"`. -/
theorem c8_witness :
    messageEmits (handleSendMessage exSt2 "t1" (some exSendHi) "120" "g5" "121" "g6" "TG").2 =
      [(Target.sock "a1",
        { sentMut exSt2 "t1" exSendHi exMsgPlain "120" "g5" "121" "g6" "TG" with
          sender := "teacher" }),
       (Target.sock "t1", sentMut exSt2 "t1" exSendHi exMsgPlain "120" "g5" "121" "g6" "TG")]
    ∧ (sentMut exSt2 "t1" exSendHi exMsgPlain "120" "g5" "121" "g6" "TG").sender = "t1" :=
  c8_amended_theorem exSt2 "t1" exSendHi exMsgPlain "120" "g5" "121" "g6" "TG"
    { currentRoom := "12345", username := "MrT", role := "teacher"
      socketId := "t1", persistentId := "" }
    { id := "a1", persistentId := "12345_ana_u1", username := "Ana", status := "online"
      lastActive := "TB", sessionId := "12345" }
    (by decide) (by decide) (by decide) (by decide) (by decide) (by decide) (by decide)
    (by decide)

/-! ## Claim C9 -/

/-- C9, counterexample to the claim as stated: a well-formed `send_message`
from a socket that never joined (`"z1"` has no `userData`) is not a no-op —
the message is persisted before the echo step throws, and only then is the
generic failure error emitted. -/
theorem c9_counterexample :
    (handleSendMessage initState "z1" (some exSendHi) "110" "g3" "111" "g4" "TZ").1.dbMessages ≠
      initState.dbMessages
    ∧ errorEmits (handleSendMessage initState "z1" (some exSendHi) "110" "g3" "111" "g4" "TZ").2 =
      [(Target.sock "z1", "Failed to process message")] := by
  decide

/-- C9 (amended): a missing payload, a missing session id or a missing
message body is rejected with an `error` event and no state change; but a
well-formed `send_message` from an unjoined connection is processed: the
message is persisted (role defaulting to `student`), and the student echo
then fails on the absent `userData`, surfacing the generic failure error
after the mutation. -/
theorem c9_amended_theorem (st : ServerState) (sockId : String) (d : SendData)
    (p : MsgPayload) (g1 g2 r1 r2 now : String) :
    (handleSendMessage st sockId none g1 g2 r1 r2 now =
      (st, [Emit.errorEv (Target.sock sockId) "Invalid message format"]))
    ∧ (d.sessionId = "" → handleSendMessage st sockId (some d) g1 g2 r1 r2 now =
      (st, [Emit.errorEv (Target.sock sockId) "Invalid message format"]))
    ∧ (d.message = none → d.sessionId ≠ "" →
      handleSendMessage st sockId (some d) g1 g2 r1 r2 now =
      (st, [Emit.errorEv (Target.sock sockId) "Invalid message format"]))
    ∧ (alookup st.socketData sockId = none → d.sessionId ≠ "" → d.message = some p →
        jsOr p.role "student" ≠ "ai" → sendSenderId st sockId d ≠ "ai-assistant" →
        (handleSendMessage st sockId (some d) g1 g2 r1 r2 now).1.dbMessages =
          st.dbMessages ++ [sentRow st sockId d p g1 g2 r1 r2 now]
        ∧ errorEmits (handleSendMessage st sockId (some d) g1 g2 r1 r2 now).2 =
          [(Target.sock sockId, "Failed to process message")]) := by
  refine ⟨rfl, ?_, ?_, ?_⟩
  · intro h
    simp only [handleSendMessage]
    rw [if_pos h]
  · intro hm h
    simp only [handleSendMessage]
    rw [if_neg h, hm]
  · intro hud hsid hmsg hnotai hsender
    refine ⟨handleSendMessage_valid_dbMessages st sockId d p g1 g2 r1 r2 now hsid hmsg, ?_⟩
    have hur : sendUserRole st sockId = "student" := by
      rw [sendUserRole, hud]
    have hmutrole : (sentMut st sockId d p g1 g2 r1 r2 now).role = jsOr p.role "student" := by
      simp [sentMut, formatMessage, sendSenderInfo, hur]
    have hmutsender : (sentMut st sockId d p g1 g2 r1 r2 now).sender =
        sendSenderId st sockId d := by
      simp [sentMut, formatMessage, sendSenderInfo]
    have hnotai2 : ¬((sentMut st sockId d p g1 g2 r1 r2 now).role = "ai"
        ∨ (sentMut st sockId d p g1 g2 r1 r2 now).sender = "ai-assistant") := by
      intro hor
      rcases hor with h | h
      · rw [hmutrole] at h
        exact hnotai h
      · rw [hmutsender] at h
        exact hsender h
    simp only [handleSendMessage]
    rw [if_neg hsid, hmsg]
    dsimp only
    rw [hud]
    dsimp only
    rw [if_neg hnotai2]
    rw [hur]
    rw [if_neg ((fun hand => absurd hand.1 (by decide)) :
      ¬(("student" : String) = "teacher" ∧ d.recipient ≠ ""))]
    rw [if_pos (rfl : ("student" : String) = "student")]
    dsimp only
    cases hT : getTeacherSocketId
        (addMessageToCache
          { st with dbMessages :=
              (st.dbMessages ++ [sentRow st sockId d p g1 g2 r1 r2 now]) }
          (sentMut st sockId d p g1 g2 r1 r2 now))
        d.sessionId with
    | none => simp [errorEmits]
    | some tid => simp [errorEmits]

/-- C9, witness: the amended theorem at concrete inputs — a malformed send
is rejected unchanged, and a valid send from the unjoined socket `"w1"`
appends to the messages table and surfaces the failure error. -/
theorem c9_witness :
    (handleSendMessage initState "w1" none "110" "g3" "111" "g4" "TW" =
      (initState, [Emit.errorEv (Target.sock "w1") "Invalid message format"]))
    ∧ (handleSendMessage initState "w1" (some exSendHi) "110" "g3" "111" "g4" "TW").1.dbMessages =
        initState.dbMessages ++ [sentRow initState "w1" exSendHi exMsgPlain "110" "g3" "111" "g4" "TW"]
    ∧ errorEmits (handleSendMessage initState "w1" (some exSendHi) "110" "g3" "111" "g4" "TW").2 =
        [(Target.sock "w1", "Failed to process message")] := by
  have h := c9_amended_theorem initState "w1" exSendHi exMsgPlain "110" "g3" "111" "g4" "TW"
  have h4 := h.2.2.2 (by decide) (by decide) (by decide) (by decide) (by decide)
  exact ⟨h.1, h4.1, h4.2⟩

/-! ## Claim C3: invariant machinery -/

theorem mem_aset {α : Type} (l : List (String × α)) (k : String) (v : α)
    (p : String × α) (hp : p ∈ aset l k v) : p ∈ l ∨ p = (k, v) := by
  induction l with
  | nil =>
    simp [aset] at hp
    exact Or.inr hp
  | cons q l ih =>
    by_cases hq : q.1 = k
    · rw [aset, if_pos hq] at hp
      rcases List.mem_cons.1 hp with h | h
      · exact Or.inr h
      · exact Or.inl (List.mem_cons_of_mem q h)
    · rw [aset, if_neg hq] at hp
      rcases List.mem_cons.1 hp with h | h
      · exact Or.inl (by rw [h]; exact List.mem_cons_self q l)
      · rcases ih h with h' | h'
        · exact Or.inl (List.mem_cons_of_mem q h')
        · exact Or.inr h'

theorem mem_of_alookup {α : Type} (l : List (String × α)) (k : String) (v : α)
    (h : alookup l k = some v) : (k, v) ∈ l := by
  unfold alookup at h
  cases hf : l.find? (fun p => p.1 == k) with
  | none =>
    rw [hf] at h
    cases h
  | some p =>
    rw [hf] at h
    have hp := List.find?_some hf
    rw [beq_iff_eq] at hp
    have hm := List.mem_of_find?_eq_some hf
    have hv : p.2 = v := by
      simpa using h
    have : p = (k, v) := by
      cases p
      simp_all
    rwa [this] at hm

theorem updateList_ne_nil (l : List StudentRec) (s : StudentRec) :
    updateList l s ≠ [] := by
  unfold updateList
  split
  · next i hi =>
    intro h
    have hl : l = [] := by
      cases l with
      | nil => rfl
      | cons a as => simp at h
    rw [hl] at hi
    simp [List.findIdx?] at hi
  · simp

theorem onlyGood_updateList (lowu X : String) (l : List StudentRec) (s : StudentRec)
    (hs : s.persistentId = X ∧ toLowerStr s.username = lowu)
    (hl : ∀ r ∈ l, r.persistentId = X ∧ toLowerStr r.username = lowu) :
    onlyGoodStudents lowu X (updateList l s) := by
  refine ⟨updateList_ne_nil l s, ?_⟩
  intro r hr
  unfold updateList at hr
  split at hr
  · rcases List.mem_or_eq_of_mem_set hr with h | h
    · exact hl r h
    · rw [h]
      exact hs
  · rcases List.mem_append.1 hr with h | h
    · exact hl r h
    · rw [List.mem_singleton.1 h]
      exact hs

theorem onlyGood_saveStudentDbList (sessionId lowu X : String) (db : List StudentRec)
    (s : StudentRec)
    (hs : s.persistentId = X ∧ toLowerStr s.username = lowu ∧ s.sessionId = sessionId)
    (hne : getSessionStudents sessionId db ≠ [])
    (hdb : ∀ r ∈ getSessionStudents sessionId db,
      r.persistentId = X ∧ toLowerStr r.username = lowu) :
    onlyGoodStudents lowu X (getSessionStudents sessionId (saveStudentDbList db s)) := by
  unfold saveStudentDbList
  split
  · constructor
    · obtain ⟨r0, hr0⟩ := List.exists_mem_of_ne_nil _ hne
      rw [getSessionStudents, List.mem_filter] at hr0
      apply List.ne_nil_of_mem (a :=
        if r0.persistentId == s.persistentId then
          { r0 with username := s.username, status := s.status
                    lastActive := s.lastActive, id := s.id }
        else r0)
      rw [getSessionStudents, List.mem_filter]
      constructor
      · exact List.mem_map_of_mem _ hr0.1
      · split <;> exact hr0.2
    · intro r hr
      rw [getSessionStudents, List.mem_filter] at hr
      obtain ⟨hmem, hsid⟩ := hr
      obtain ⟨r0, hr0, hr0e⟩ := List.mem_map.1 hmem
      have hr0good : r0.sessionId == sessionId → r0.persistentId = X
          ∧ toLowerStr r0.username = lowu := by
        intro hc
        exact hdb r0 (by rw [getSessionStudents, List.mem_filter]; exact ⟨hr0, hc⟩)
      by_cases hpid : (r0.persistentId == s.persistentId) = true
      · rw [if_pos hpid] at hr0e
        have hsid0 : r0.sessionId == sessionId := by
          rw [← hr0e] at hsid
          exact hsid
        have hg := hr0good hsid0
        rw [← hr0e]
        exact ⟨hg.1, hs.2.1⟩
      · rw [if_neg hpid] at hr0e
        rw [← hr0e]
        exact hr0good (by rw [hr0e]; exact hsid)
  · constructor
    · apply List.ne_nil_of_mem (a := s)
      rw [getSessionStudents, List.mem_filter]
      exact ⟨List.mem_append_right db (List.mem_singleton_self s), by simp [hs.2.2]⟩
    · intro r hr
      rw [getSessionStudents, List.mem_filter] at hr
      rcases List.mem_append.1 hr.1 with h | h
      · exact hdb r (by rw [getSessionStudents, List.mem_filter]; exact ⟨h, hr.2⟩)
      · rw [List.mem_singleton.1 h]
        exact ⟨hs.1, hs.2.1⟩

theorem hydrated_good (sessionId lowu X : String) (st : ServerState)
    (hg : c3GoodState sessionId lowu X st) :
    onlyGoodStudents lowu X (hydratedStudents st sessionId) := by
  obtain ⟨hdb, hcache, _⟩ := hg
  unfold hydratedStudents
  rcases hcache with hc | hc
  · rw [if_neg (by simpa using hc)]
    exact hdb
  · rw [if_pos (by simpa using hc.1)]
    exact hc

theorem resolve_of_onlyGood (students db : List StudentRec)
    (sessionId username suppliedId uuid lowu X : String)
    (hg : onlyGoodStudents lowu X students) (hu : toLowerStr username = lowu) :
    resolveStudentId students db sessionId username suppliedId uuid = X := by
  obtain ⟨hne, hall⟩ := hg
  cases students with
  | nil => exact absurd rfl hne
  | cons r rest =>
    have hr := hall r (List.mem_cons_self r rest)
    have hb : (toLowerStr r.username == toLowerStr username) = true := by
      rw [beq_iff_eq, hr.2, hu]
    rw [resolveStudentId, List.find?_cons, hb]
    exact hr.1

theorem joinResolvedId_of_good (st : ServerState)
    (sessionId username suppliedId uuid lowu X : String)
    (hg : c3GoodState sessionId lowu X st) (hu : toLowerStr username = lowu) :
    joinResolvedId st sessionId username suppliedId uuid = X := by
  rw [joinResolvedId]
  rw [loadStudents_fst]
  exact resolve_of_onlyGood _ _ sessionId username suppliedId uuid lowu X
    (hydrated_good sessionId lowu X st hg) hu

theorem roomStudentsOf_ext (a b : ServerState) (h : a.roomStudents = b.roomStudents)
    (sid : String) : roomStudentsOf a sid = roomStudentsOf b sid := by
  unfold roomStudentsOf
  rw [h]

theorem hydratedStudents_loadStudents (st : ServerState) (sid : String) :
    hydratedStudents (loadStudents st sid).2 sid = hydratedStudents st sid := by
  have hdb : (loadStudents st sid).2.dbStudents = st.dbStudents := by simp
  have hrs : roomStudentsOf (loadStudents st sid).2 sid = hydratedStudents st sid := by
    rw [roomStudentsOf_loadStudents, if_pos rfl]
  rw [hydratedStudents, hrs, hdb]
  by_cases h : hydratedStudents st sid = []
  · have hfil : getSessionStudents sid st.dbStudents = [] := by
      unfold hydratedStudents at h
      by_cases hc : roomStudentsOf st sid ≠ []
      · rw [if_pos hc] at h
        exact absurd h hc
      · rw [if_neg hc] at h
        exact h
    rw [if_neg (by simpa using h), hfil, h]
  · rw [if_pos (by simpa using h)]

@[simp] theorem systemNotify_fst_dbSessions (st : ServerState) (a b c d e f : String) :
    (systemNotify st a b c d e f).1.dbSessions = st.dbSessions := rfl

@[simp] theorem systemNotify_fst_dbStudents (st : ServerState) (a b c d e f : String) :
    (systemNotify st a b c d e f).1.dbStudents = st.dbStudents := rfl

@[simp] theorem systemNotify_fst_roomStudents (st : ServerState) (a b c d e f : String) :
    (systemNotify st a b c d e f).1.roomStudents = st.roomStudents := rfl

@[simp] theorem systemNotify_fst_roomTeachers (st : ServerState) (a b c d e f : String) :
    (systemNotify st a b c d e f).1.roomTeachers = st.roomTeachers := rfl

@[simp] theorem systemNotify_fst_socketData (st : ServerState) (a b c d e f : String) :
    (systemNotify st a b c d e f).1.socketData = st.socketData := rfl

theorem joinResolve_student (st : ServerState) (sessionId sanitized supplied uuid : String) :
    joinResolve st sessionId sanitized "student" supplied uuid =
      ((loadStudents st sessionId).2,
        joinResolvedId st sessionId sanitized supplied uuid) := by
  rw [joinResolve, if_pos rfl, joinResolvedId]

theorem joinResolve_teacher (st : ServerState)
    (sessionId sanitized userRole supplied uuid : String) (h : userRole ≠ "student") :
    joinResolve st sessionId sanitized userRole supplied uuid = (st, supplied) := by
  rw [joinResolve, if_neg h]

theorem joinRegister_teacher (st : ServerState)
    (sessionId sockId sanitized studentId ts : String) :
    joinRegister st sessionId sockId sanitized "teacher" studentId ts =
      (setTeacherSocketId st sessionId sockId,
        [Emit.studentList (Target.sock sockId)
          (getStudentsFromCache (setTeacherSocketId st sessionId sockId) sessionId)]) := by
  rw [joinRegister, if_pos rfl]

theorem joinRegister_student_dbStudents (st : ServerState)
    (sessionId sockId sanitized userRole studentId ts : String) (h : userRole ≠ "teacher") :
    (joinRegister st sessionId sockId sanitized userRole studentId ts).1.dbStudents =
      saveStudentDbList st.dbStudents
        { id := sockId, persistentId := studentId, username := sanitized
          status := "online", lastActive := ts, sessionId := sessionId } := by
  rw [joinRegister, if_neg h]
  simp

theorem joinRegister_student_roomStudents (st : ServerState)
    (sessionId sockId sanitized userRole studentId ts : String) (h : userRole ≠ "teacher") :
    roomStudentsOf (joinRegister st sessionId sockId sanitized userRole studentId ts).1
        sessionId =
      updateList (roomStudentsOf st sessionId)
        { id := sockId, persistentId := studentId, username := sanitized
          status := "online", lastActive := ts, sessionId := sessionId } := by
  rw [joinRegister, if_neg h]
  show roomStudentsOf (updateStudentInCache st sessionId
      { id := sockId, persistentId := studentId, username := sanitized
        status := "online", lastActive := ts, sessionId := sessionId }) sessionId = _
  rw [roomStudentsOf_updateStudentInCache, if_pos rfl]

theorem joinRegister_fst_roomTeachers_student (st : ServerState)
    (sessionId sockId sanitized userRole studentId ts : String) (h : userRole ≠ "teacher") :
    (joinRegister st sessionId sockId sanitized userRole studentId ts).1.roomTeachers =
      st.roomTeachers := by
  rw [joinRegister, if_neg h]
  simp

theorem joinRegister_fst_socketData (st : ServerState)
    (sessionId sockId sanitized userRole studentId ts : String) :
    (joinRegister st sessionId sockId sanitized userRole studentId ts).1.socketData =
      st.socketData := by
  rw [joinRegister]
  split <;> simp

theorem joinRegister_fst_dbMessages (st : ServerState)
    (sessionId sockId sanitized userRole studentId ts : String) :
    (joinRegister st sessionId sockId sanitized userRole studentId ts).1.dbMessages =
      st.dbMessages := by
  rw [joinRegister]
  split <;> simp

theorem joinRegister_fst_chatCache (st : ServerState)
    (sessionId sockId sanitized userRole studentId ts : String) :
    (joinRegister st sessionId sockId sanitized userRole studentId ts).1.chatCache =
      st.chatCache := by
  rw [joinRegister]
  split <;> simp

theorem joinRegister_teacher_roomStudents (st : ServerState)
    (sessionId sockId sanitized studentId ts : String) (sid' : String) :
    roomStudentsOf (joinRegister st sessionId sockId sanitized "teacher" studentId ts).1
        sid' = roomStudentsOf st sid' := by
  rw [joinRegister_teacher]
  exact roomStudentsOf_ext _ st (by simp) sid'

theorem joinRegister_teacher_dbStudents (st : ServerState)
    (sessionId sockId sanitized studentId ts : String) :
    (joinRegister st sessionId sockId sanitized "teacher" studentId ts).1.dbStudents =
      st.dbStudents := by
  rw [joinRegister_teacher]
  simp

theorem joinHistory_fst_dbStudents (st : ServerState) (a b c d : String) :
    (joinHistory st a b c d).1.dbStudents = st.dbStudents := by
  rw [joinHistory]
  repeat' split
  all_goals simp

theorem joinHistory_fst_roomStudents (st : ServerState) (a b c d : String) :
    (joinHistory st a b c d).1.roomStudents = st.roomStudents := by
  rw [joinHistory]
  repeat' split
  all_goals simp

theorem joinHistory_fst_roomTeachers (st : ServerState) (a b c d : String) :
    (joinHistory st a b c d).1.roomTeachers = st.roomTeachers := by
  rw [joinHistory]
  repeat' split
  all_goals simp

theorem joinHistory_fst_socketData (st : ServerState) (a b c d : String) :
    (joinHistory st a b c d).1.socketData = st.socketData := by
  rw [joinHistory]
  repeat' split
  all_goals simp

theorem joinHistory_fst_dbMessages (st : ServerState) (a b c d : String) :
    (joinHistory st a b c d).1.dbMessages = st.dbMessages := by
  rw [joinHistory]
  repeat' split
  all_goals simp

theorem handleJoinRoom_student_dbStudents (st : ServerState)
    (sock sessionId u role supplied uuid mN mU ts : String)
    (hsid : sessionId ≠ "") (hrole : jsOr role "student" = "student") :
    (handleJoinRoom st sock sessionId u role supplied uuid mN mU ts).1.dbStudents =
      saveStudentDbList st.dbStudents
        { id := sock
          persistentId := joinResolvedId st sessionId (jsOr u "Anonymous") supplied uuid
          username := jsOr u "Anonymous", status := "online", lastActive := ts
          sessionId := sessionId } := by
  simp only [handleJoinRoom]
  rw [if_neg hsid, hrole, joinResolve_student]
  rw [joinHistory_fst_dbStudents, systemNotify_fst_dbStudents]
  rw [joinRegister_student_dbStudents _ _ _ _ _ _ _ (by decide)]
  simp

theorem handleJoinRoom_student_roomStudents (st : ServerState)
    (sock sessionId u role supplied uuid mN mU ts : String)
    (hsid : sessionId ≠ "") (hrole : jsOr role "student" = "student") :
    roomStudentsOf (handleJoinRoom st sock sessionId u role supplied uuid mN mU ts).1
        sessionId =
      updateList (hydratedStudents st sessionId)
        { id := sock
          persistentId := joinResolvedId st sessionId (jsOr u "Anonymous") supplied uuid
          username := jsOr u "Anonymous", status := "online", lastActive := ts
          sessionId := sessionId } := by
  simp only [handleJoinRoom]
  rw [if_neg hsid, hrole, joinResolve_student]
  rw [roomStudentsOf_ext _ _ (joinHistory_fst_roomStudents _ _ _ _ _)]
  rw [roomStudentsOf_ext _ _ (systemNotify_fst_roomStudents _ _ _ _ _ _ _)]
  rw [joinRegister_student_roomStudents _ _ _ _ _ _ _ (by decide)]
  rw [roomStudentsOf_loadStudents, if_pos rfl]
  have h4 : hydratedStudents
      (loadChatHistory (ensureSessionExists
        { (loadStudents st sessionId).2 with socketData :=
          (aset (loadStudents st sessionId).2.socketData sock
            { currentRoom := sessionId, username := jsOr u "Anonymous", role := "student"
              socketId := sock
              persistentId := joinResolvedId st sessionId (jsOr u "Anonymous") supplied uuid }) }
        sessionId) sessionId).2 sessionId = hydratedStudents st sessionId := by
    rw [hydratedStudents]
    rw [roomStudentsOf_ext _ (loadStudents st sessionId).2 (by simp)]
    rw [roomStudentsOf_loadStudents, if_pos rfl]
    have hdb2 : (loadChatHistory (ensureSessionExists
        { (loadStudents st sessionId).2 with socketData :=
          (aset (loadStudents st sessionId).2.socketData sock
            { currentRoom := sessionId, username := jsOr u "Anonymous", role := "student"
              socketId := sock
              persistentId := joinResolvedId st sessionId (jsOr u "Anonymous") supplied uuid }) }
        sessionId) sessionId).2.dbStudents = st.dbStudents := by
      simp
    rw [hdb2]
    by_cases h : hydratedStudents st sessionId = []
    · have hfil : getSessionStudents sessionId st.dbStudents = [] := by
        unfold hydratedStudents at h
        by_cases hc : roomStudentsOf st sessionId ≠ []
        · rw [if_pos hc] at h
          exact absurd h hc
        · rw [if_neg hc] at h
          exact h
      rw [if_neg (by simpa using h), hfil, h]
    · rw [if_pos (by simpa using h)]
  rw [h4]

theorem handleJoinRoom_teacher_dbStudents (st : ServerState)
    (sock sessionId u role supplied uuid mN mU ts : String)
    (hsid : sessionId ≠ "") (hrole : jsOr role "student" = "teacher") :
    (handleJoinRoom st sock sessionId u role supplied uuid mN mU ts).1.dbStudents =
      st.dbStudents := by
  simp only [handleJoinRoom]
  rw [if_neg hsid, hrole, joinResolve_teacher _ _ _ _ _ _ (by decide)]
  rw [joinHistory_fst_dbStudents, systemNotify_fst_dbStudents, joinRegister_teacher_dbStudents]
  simp

theorem handleJoinRoom_teacher_roomStudents (st : ServerState)
    (sock sessionId u role supplied uuid mN mU ts : String)
    (hsid : sessionId ≠ "") (hrole : jsOr role "student" = "teacher") :
    roomStudentsOf (handleJoinRoom st sock sessionId u role supplied uuid mN mU ts).1
        sessionId = hydratedStudents st sessionId := by
  simp only [handleJoinRoom]
  rw [if_neg hsid, hrole, joinResolve_teacher _ _ _ _ _ _ (by decide)]
  rw [roomStudentsOf_ext _ _ (joinHistory_fst_roomStudents _ _ _ _ _)]
  rw [roomStudentsOf_ext _ _ (systemNotify_fst_roomStudents _ _ _ _ _ _ _)]
  rw [joinRegister_teacher_roomStudents]
  rw [roomStudentsOf_loadStudents, if_pos rfl]
  rw [hydratedStudents]
  rw [roomStudentsOf_ext _ st (by simp)]
  have hdb2 : (loadChatHistory (ensureSessionExists
      { st with socketData :=
        (aset st.socketData sock
          { currentRoom := sessionId, username := jsOr u "Anonymous", role := "teacher"
            socketId := sock, persistentId := supplied }) }
      sessionId) sessionId).2.dbStudents = st.dbStudents := by
    simp
  rw [hdb2]
  rfl

theorem handleJoinRoom_socketData (st : ServerState)
    (sock sessionId u role supplied uuid mN mU ts : String)
    (hsid : sessionId ≠ "") :
    (handleJoinRoom st sock sessionId u role supplied uuid mN mU ts).1.socketData =
      aset st.socketData sock
        { currentRoom := sessionId, username := jsOr u "Anonymous"
          role := jsOr role "student", socketId := sock
          persistentId :=
            (joinResolve st sessionId (jsOr u "Anonymous") (jsOr role "student")
              supplied uuid).2 } := by
  simp only [handleJoinRoom]
  rw [if_neg hsid]
  rw [joinHistory_fst_socketData, systemNotify_fst_socketData, joinRegister_fst_socketData]
  have h1 : (joinResolve st sessionId (jsOr u "Anonymous") (jsOr role "student")
      supplied uuid).1.socketData = st.socketData := by
    rw [joinResolve]
    split <;> simp
  simp [h1]


/-! ## Claim C3: identity stability of the resolver -/

theorem c3Good_ext (sessionId lowu X : String) (a b : ServerState)
    (h1 : a.dbStudents = b.dbStudents) (h2 : a.roomStudents = b.roomStudents)
    (h3 : a.socketData = b.socketData) (hg : c3GoodState sessionId lowu X b) :
    c3GoodState sessionId lowu X a := by
  obtain ⟨hdb, hcache, hsock⟩ := hg
  unfold c3GoodState
  refine ⟨?_, ?_, ?_⟩
  · rw [h1]
    exact hdb
  · rw [roomStudentsOf_ext a b h2]
    exact hcache
  · rw [h3]
    exact hsock

theorem c3Good_systemNotify (sessionId lowu X : String) (st : ServerState)
    (a b c d e f : String) (hg : c3GoodState sessionId lowu X st) :
    c3GoodState sessionId lowu X (systemNotify st a b c d e f).1 :=
  c3Good_ext sessionId lowu X _ st rfl rfl rfl hg

theorem onlyGood_saveStudentDbList_update (sessionId lowu X : String)
    (db : List StudentRec) (s : StudentRec)
    (hs : s.persistentId = X ∧ toLowerStr s.username = lowu)
    (hne : getSessionStudents sessionId db ≠ [])
    (hdb : ∀ r ∈ getSessionStudents sessionId db,
      r.persistentId = X ∧ toLowerStr r.username = lowu) :
    onlyGoodStudents lowu X (getSessionStudents sessionId (saveStudentDbList db s)) := by
  have hany : db.any (fun r => r.persistentId == s.persistentId) = true := by
    obtain ⟨r0, hr0⟩ := List.exists_mem_of_ne_nil _ hne
    rw [getSessionStudents, List.mem_filter] at hr0
    refine List.any_eq_true.2 ⟨r0, hr0.1, ?_⟩
    rw [beq_iff_eq, hs.1]
    exact (hdb r0 (by rw [getSessionStudents, List.mem_filter]; exact hr0)).1
  rw [saveStudentDbList, if_pos hany]
  constructor
  · obtain ⟨r0, hr0⟩ := List.exists_mem_of_ne_nil _ hne
    rw [getSessionStudents, List.mem_filter] at hr0
    apply List.ne_nil_of_mem (a :=
      if r0.persistentId == s.persistentId then
        { r0 with username := s.username, status := s.status
                  lastActive := s.lastActive, id := s.id }
      else r0)
    rw [getSessionStudents, List.mem_filter]
    constructor
    · exact List.mem_map_of_mem _ hr0.1
    · split <;> exact hr0.2
  · intro r hr
    rw [getSessionStudents, List.mem_filter] at hr
    obtain ⟨hmem, hsid⟩ := hr
    obtain ⟨r0, hr0, hr0e⟩ := List.mem_map.1 hmem
    have hr0good : r0.sessionId == sessionId → r0.persistentId = X
        ∧ toLowerStr r0.username = lowu := by
      intro hc
      exact hdb r0 (by rw [getSessionStudents, List.mem_filter]; exact ⟨hr0, hc⟩)
    by_cases hpid : (r0.persistentId == s.persistentId) = true
    · rw [if_pos hpid] at hr0e
      have hsidm : r0.sessionId == sessionId := by
        rw [← hr0e] at hsid
        exact hsid
      have hgd := hr0good hsidm
      rw [← hr0e]
      exact ⟨hgd.1, hs.2⟩
    · rw [if_neg hpid] at hr0e
      rw [← hr0e]
      exact hr0good (by rw [hr0e]; exact hsid)

theorem c3Good_join_teacher (sessionId lowu X : String) (st : ServerState)
    (sock u role supplied uuid mN mU ts : String)
    (hrole : jsOr role "student" = "teacher")
    (hg : c3GoodState sessionId lowu X st) :
    c3GoodState sessionId lowu X
      (handleJoinRoom st sock sessionId u role supplied uuid mN mU ts).1 := by
  by_cases hsid : sessionId = ""
  · rw [handleJoinRoom, if_pos hsid]
    exact hg
  · have hdb := hg.1
    have hcache := hg.2.1
    have hsock := hg.2.2
    unfold c3GoodState
    refine ⟨?_, ?_, ?_⟩
    · rw [handleJoinRoom_teacher_dbStudents st sock sessionId u role supplied uuid mN mU ts
        hsid hrole]
      exact hdb
    · rw [handleJoinRoom_teacher_roomStudents st sock sessionId u role supplied uuid mN mU ts
        hsid hrole]
      exact Or.inr (hydrated_good sessionId lowu X st hg)
    · intro p hp
      rw [handleJoinRoom_socketData st sock sessionId u role supplied uuid mN mU ts hsid] at hp
      rcases mem_aset _ _ _ _ hp with h | h
      · exact hsock p h
      · rw [h]

theorem c3Good_join_student (sessionId lowu X : String) (st : ServerState)
    (sock u role supplied uuid mN mU ts : String)
    (hrole : jsOr role "student" = "student")
    (hu : toLowerStr (jsOr u "Anonymous") = lowu)
    (hg : c3GoodState sessionId lowu X st) :
    c3GoodState sessionId lowu X
      (handleJoinRoom st sock sessionId u role supplied uuid mN mU ts).1 := by
  by_cases hsid : sessionId = ""
  · rw [handleJoinRoom, if_pos hsid]
    exact hg
  · have hdb := hg.1
    have hcache := hg.2.1
    have hsock := hg.2.2
    have hres : joinResolvedId st sessionId (jsOr u "Anonymous") supplied uuid = X :=
      joinResolvedId_of_good st sessionId (jsOr u "Anonymous") supplied uuid lowu X hg hu
    unfold c3GoodState
    refine ⟨?_, ?_, ?_⟩
    · rw [handleJoinRoom_student_dbStudents st sock sessionId u role supplied uuid mN mU ts
        hsid hrole]
      exact onlyGood_saveStudentDbList sessionId lowu X st.dbStudents _ ⟨hres, hu, rfl⟩
        hdb.1 hdb.2
    · rw [handleJoinRoom_student_roomStudents st sock sessionId u role supplied uuid mN mU ts
        hsid hrole]
      exact Or.inr (onlyGood_updateList lowu X _ _ ⟨hres, hu⟩
        (hydrated_good sessionId lowu X st hg).2)
    · intro p hp
      rw [handleJoinRoom_socketData st sock sessionId u role supplied uuid mN mU ts hsid] at hp
      rcases mem_aset _ _ _ _ hp with h | h
      · exact hsock p h
      · rw [h]

theorem c3Good_handleDisconnect (sessionId lowu X : String) (st : ServerState)
    (sockId mN mU ts : String) (hg : c3GoodState sessionId lowu X st) :
    c3GoodState sessionId lowu X (handleDisconnect st sockId mN mU ts).1 := by
  have hdb := hg.1
  have hcache := hg.2.1
  have hsock := hg.2.2
  unfold handleDisconnect
  cases hud : alookup st.socketData sockId with
  | none => exact hg
  | some ud =>
    dsimp only
    have hroom : ud.currentRoom = sessionId := hsock (sockId, ud) (mem_of_alookup _ _ _ hud)
    by_cases hre : ud.currentRoom = ""
    · rw [if_pos hre]
      exact hg
    · rw [if_neg hre, hroom]
      dsimp only
      apply c3Good_systemNotify
      split
      · exact c3Good_ext sessionId lowu X _ st rfl rfl rfl hg
      · split
        · split
          · next s heq =>
            dsimp only
            unfold findStudentInCache at heq
            have hmem : s ∈ roomStudentsOf st sessionId := by
              split at heq
              · exact List.mem_of_find?_eq_some heq
              · exact List.mem_of_find?_eq_some heq
            have hcg : onlyGoodStudents lowu X (roomStudentsOf st sessionId) := by
              rcases hcache with hc | hc
              · rw [hc] at hmem
                exact absurd hmem (List.not_mem_nil s)
              · exact hc
            have hsg := hcg.2 s hmem
            unfold c3GoodState
            refine ⟨?_, ?_, ?_⟩
            · rw [updateStudentInCache_dbStudents]
              exact onlyGood_saveStudentDbList_update sessionId lowu X st.dbStudents
                { s with status := "offline", lastActive := ts } ⟨hsg.1, hsg.2⟩ hdb.1 hdb.2
            · rw [roomStudentsOf_updateStudentInCache, if_pos rfl]
              exact Or.inr (onlyGood_updateList lowu X _ _ ⟨hsg.1, hsg.2⟩ hcg.2)
            · intro p hp
              rw [updateStudentInCache_socketData] at hp
              exact hsock p hp
          · exact hg
        · exact hg

theorem c3Good_step (sessionId lowu X : String) (st : ServerState) (e : SEv)
    (he : allowedC3Ev sessionId lowu e = true)
    (hg : c3GoodState sessionId lowu X st) :
    c3GoodState sessionId lowu X (stepEv st e).1 := by
  cases e with
  | evJoin sock sid u role supplied uuid mN mU ts =>
    simp only [allowedC3Ev, Bool.and_eq_true, Bool.or_eq_true, beq_iff_eq] at he
    obtain ⟨hsid, hrest⟩ := he
    show c3GoodState sessionId lowu X
      (handleJoinRoom st sock sid u role supplied uuid mN mU ts).1
    rw [hsid]
    rcases hrest with hT | hS
    · exact c3Good_join_teacher sessionId lowu X st sock u role supplied uuid mN mU ts hT hg
    · obtain ⟨⟨hrole, hu⟩, hsup⟩ := hS
      exact c3Good_join_student sessionId lowu X st sock u role supplied uuid mN mU ts
        hrole hu hg
  | evSend sock md g1 g2 r1 r2 t =>
    simp only [allowedC3Ev] at he
    exact absurd he (by decide)
  | evLeave a b c d e f g =>
    simp only [allowedC3Ev] at he
    exact absurd he (by decide)
  | evDisc sock mN mU ts =>
    exact c3Good_handleDisconnect sessionId lowu X st sock mN mU ts hg

theorem c3Good_run (sessionId lowu X : String) (tr : List SEv) (st : ServerState)
    (hall : tr.all (allowedC3Ev sessionId lowu) = true)
    (hg : c3GoodState sessionId lowu X st) :
    c3GoodState sessionId lowu X (runEvs st tr) := by
  induction tr generalizing st with
  | nil => exact hg
  | cons e tr ih =>
    rw [List.all_cons, Bool.and_eq_true] at hall
    show c3GoodState sessionId lowu X (runEvs (stepEv st e).1 tr)
    exact ih (stepEv st e).1 hall.2 (c3Good_step sessionId lowu X st e hall.1 hg)

theorem joinResolvedId_initState (sessionId username uuid : String) :
    joinResolvedId initState sessionId username "" uuid =
      generateStudentId username sessionId uuid := rfl

theorem c3Good_first_join (sessionId u1 role1 uuid1 sock1 mN1 mU1 ts1 : String)
    (hsid : sessionId ≠ "") (hrole : jsOr role1 "student" = "student") :
    c3GoodState sessionId (toLowerStr (jsOr u1 "Anonymous"))
      (generateStudentId (jsOr u1 "Anonymous") sessionId uuid1)
      (handleJoinRoom initState sock1 sessionId u1 role1 "" uuid1 mN1 mU1 ts1).1 := by
  unfold c3GoodState
  refine ⟨?_, ?_, ?_⟩
  · rw [handleJoinRoom_student_dbStudents initState sock1 sessionId u1 role1 "" uuid1
      mN1 mU1 ts1 hsid hrole, joinResolvedId_initState]
    constructor
    · simp [initState, saveStudentDbList, getSessionStudents]
    · intro r hr
      simp [initState, saveStudentDbList, getSessionStudents] at hr
      rw [hr]
      exact ⟨rfl, rfl⟩
  · rw [handleJoinRoom_student_roomStudents initState sock1 sessionId u1 role1 "" uuid1
      mN1 mU1 ts1 hsid hrole, joinResolvedId_initState]
    refine Or.inr (onlyGood_updateList _ _ _ _ ⟨rfl, rfl⟩ ?_)
    intro r hr
    have h0 : hydratedStudents initState sessionId = [] := rfl
    rw [h0] at hr
    exact absurd hr (List.not_mem_nil r)
  · intro p hp
    rw [handleJoinRoom_socketData initState sock1 sessionId u1 role1 "" uuid1 mN1 mU1 ts1
      hsid] at hp
    rcases mem_aset _ _ _ _ hp with h | h
    · exact absurd h (List.not_mem_nil p)
    · rw [h]

/-- C3, counterexample to the claim as stated: Ana joins session `"12345"`
with no id and gets `"12345_ana_u1"`; after Bob joins and Ana leaves via
`leave_room`, her record is dropped from the still non-empty roster cache,
so her case-insensitive rejoin with no supplied id resolves to the freshly
generated `"12345_ana_u9"` — identity is not stable across leaves. -/
theorem c3_counterexample :
    (alookup exSt2.socketData "a1").map (fun q => q.persistentId) = some "12345_ana_u1"
    ∧ joinResolvedId exSt4 "12345" "ana" "" "u9" = "12345_ana_u9"
    ∧ ("12345_ana_u9" : String) ≠ "12345_ana_u1" := by
  refine ⟨?_, ?_, ?_⟩ <;> decide


/-! ## Claim C4: teacher omniscience -/

theorem listLe_refl (l : List Char) : listLe l l = true := by
  induction l with
  | nil => rfl
  | cons a as ih =>
    rw [listLe, if_neg (Nat.lt_irrefl a.toNat), if_neg (Nat.lt_irrefl a.toNat)]
    exact ih

theorem tsLe_refl (a : String) : tsLe a a = true := listLe_refl a.data

theorem jsOr_ne_empty (a b : String) (h : b ≠ "") : jsOr a b ≠ "" := by
  rw [jsOr]
  split
  · exact h
  · next hne => exact hne

theorem jsOptOrNone_jsStrOrNone (s : String) :
    jsOptOrNone (jsStrOrNone s) = jsStrOrNone s := by
  rw [jsStrOrNone]
  by_cases h : s = ""
  · rw [if_pos h]
    rfl
  · rw [if_neg h]
    show jsStrOrNone s = some s
    rw [jsStrOrNone, if_neg h]

theorem viewOf_saveMessageRow (regen : String) (m : MessageIn)
    (hsn : m.senderName ≠ "") (hrc : jsOptOrNone m.recipient = m.recipient) :
    viewOf (saveMessageRow regen m) =
      cacheViewOf { m with id := (saveMessageRow regen m).id } := by
  rw [viewOf, saveMessageRow, cacheViewOf]
  dsimp only
  rw [jsStrOrNone, if_neg hsn, hrc]

theorem msgInv_ext (a b : ServerState) (bnd : String)
    (h1 : a.dbMessages = b.dbMessages) (h2 : a.chatCache = b.chatCache)
    (hg : msgInv b bnd) : msgInv a bnd := by
  obtain ⟨hco, hso, hbd⟩ := hg
  refine ⟨?_, ?_, ?_⟩
  · intro sid
    have e1 : chatCacheOf a sid = chatCacheOf b sid := by
      rw [chatCacheOf_eq, chatCacheOf_eq, h2]
    have e2 : msgRowsOf a sid = msgRowsOf b sid := by
      rw [msgRowsOf, msgRowsOf, h1]
    rw [e1, e2]
    exact hco sid
  · rw [tsSortedRows, h1]
    exact hso
  · intro r hr
    rw [h1] at hr
    exact hbd r hr

theorem msgInv_mono (st : ServerState) (b c : String) (h : tsLe b c = true)
    (hg : msgInv st b) : msgInv st c := by
  obtain ⟨hco, hso, hbd⟩ := hg
  exact ⟨hco, hso, fun r hr => tsLe_trans _ _ _ (hbd r hr) h⟩

theorem msgInv_append (st : ServerState) (m : MessageIn) (regen b : String)
    (hinv : msgInv st b)
    (hts : tsLe b m.timestamp = true)
    (hsn : m.senderName ≠ "")
    (hrc : jsOptOrNone m.recipient = m.recipient) :
    msgInv
      (addMessageToCache { st with dbMessages := (st.dbMessages ++ [saveMessageRow regen m]) }
        { m with id := (saveMessageRow regen m).id })
      m.timestamp := by
  obtain ⟨hco, hso, hbd⟩ := hinv
  have hdbm : (addMessageToCache
      { st with dbMessages := (st.dbMessages ++ [saveMessageRow regen m]) }
      { m with id := (saveMessageRow regen m).id }).dbMessages =
      st.dbMessages ++ [saveMessageRow regen m] := rfl
  have hcc : ∀ z, chatCacheOf
      { st with dbMessages := (st.dbMessages ++ [saveMessageRow regen m]) } z =
      chatCacheOf st z := fun z => rfl
  have hmr : ∀ z, msgRowsOf (addMessageToCache
      { st with dbMessages := (st.dbMessages ++ [saveMessageRow regen m]) }
      { m with id := (saveMessageRow regen m).id }) z =
      (st.dbMessages ++ [saveMessageRow regen m]).filter (fun r => r.sessionId == z) :=
    fun z => rfl
  refine ⟨?_, ?_, ?_⟩
  · intro sid
    rw [chatCacheOf_addMessageToCache]
    dsimp only
    by_cases h : sid = m.sessionId
    · rw [if_pos h, h, hcc, hco m.sessionId, ← viewOf_saveMessageRow regen m hsn hrc,
        hmr, List.filter_append, List.map_append]
      have hp : ((saveMessageRow regen m).sessionId == m.sessionId) = true := by
        simp [saveMessageRow]
      have hfr : List.filter (fun r => r.sessionId == m.sessionId)
          [saveMessageRow regen m] = [saveMessageRow regen m] := by
        rw [List.filter_cons, if_pos hp]
        rfl
      rw [hfr, msgRowsOf]
      simp
    · rw [if_neg h, hcc, hco sid, hmr, List.filter_append]
      have hp : ¬ (((saveMessageRow regen m).sessionId == sid) = true) := by
        simp only [saveMessageRow, beq_iff_eq]
        exact fun hx => h hx.symm
      have hfr : List.filter (fun r => r.sessionId == sid)
          [saveMessageRow regen m] = [] := by
        rw [List.filter_cons, if_neg hp]
        rfl
      rw [hfr, msgRowsOf]
      simp
  · rw [tsSortedRows, hdbm, List.pairwise_append]
    refine ⟨hso, by simp, ?_⟩
    intro x hx y hy
    rw [List.mem_singleton.1 hy]
    exact tsLe_trans _ _ _ (hbd x hx) hts
  · intro r hr
    rw [hdbm] at hr
    rcases List.mem_append.1 hr with hx | hx
    · exact tsLe_trans _ _ _ (hbd r hx) hts
    · rw [List.mem_singleton.1 hx]
      exact tsLe_refl m.timestamp

theorem msgInv_loadChatHistory (st : ServerState) (sid bnd : String)
    (hinv : msgInv st bnd) : msgInv (loadChatHistory st sid).2 bnd := by
  obtain ⟨hco, hso, hbd⟩ := hinv
  refine ⟨?_, ?_, ?_⟩
  · intro z
    rw [chatCacheOf_loadChatHistory]
    have hmrz : msgRowsOf (loadChatHistory st sid).2 z = msgRowsOf st z := by
      rw [msgRowsOf, msgRowsOf, loadChatHistory_snd_dbMessages]
    rw [hmrz]
    by_cases h : z = sid
    · rw [if_pos h, h, hydratedHistory]
      by_cases hc : chatCacheOf st sid ≠ []
      · rw [if_pos hc]
        exact hco sid
      · rw [if_neg hc, getSessionMessages, sortByTs_eq_self]
        · rfl
        · exact List.Pairwise.sublist (List.filter_sublist _) hso
    · rw [if_neg h]
      exact hco z
  · rw [tsSortedRows, loadChatHistory_snd_dbMessages]
    exact hso
  · intro r hr
    rw [loadChatHistory_snd_dbMessages] at hr
    exact hbd r hr

theorem hydratedHistory_of_inv (st : ServerState) (sid bnd : String)
    (hinv : msgInv st bnd) :
    hydratedHistory st sid = getSessionMessages sid st.dbMessages := by
  obtain ⟨hco, hso, _⟩ := hinv
  have hgs : getSessionMessages sid st.dbMessages = (msgRowsOf st sid).map viewOf := by
    rw [getSessionMessages, sortByTs_eq_self]
    · rfl
    · exact List.Pairwise.sublist (List.filter_sublist _) hso
  rw [hydratedHistory]
  by_cases hc : chatCacheOf st sid ≠ []
  · rw [if_pos hc, hgs]
    exact hco sid
  · rw [if_neg hc]

theorem msgInv_socketData (st : ServerState) (x : List (String × UserData)) (bnd : String)
    (hinv : msgInv st bnd) : msgInv { st with socketData := x } bnd :=
  msgInv_ext _ st bnd rfl rfl hinv

theorem msgInv_ensureSessionExists (st : ServerState) (sid bnd : String)
    (hinv : msgInv st bnd) : msgInv (ensureSessionExists st sid) bnd :=
  msgInv_ext _ st bnd (by simp) (by simp) hinv

theorem msgInv_loadStudents (st : ServerState) (sid bnd : String)
    (hinv : msgInv st bnd) : msgInv (loadStudents st sid).2 bnd :=
  msgInv_ext _ st bnd (by simp) (by simp) hinv

theorem msgInv_setTeacherSocketId (st : ServerState) (sid sock bnd : String)
    (hinv : msgInv st bnd) : msgInv (setTeacherSocketId st sid sock) bnd :=
  msgInv_ext _ st bnd (by simp) (by simp) hinv

theorem msgInv_joinResolve (st : ServerState) (a b c d e bnd : String)
    (hinv : msgInv st bnd) : msgInv (joinResolve st a b c d e).1 bnd := by
  refine msgInv_ext _ st bnd ?_ ?_ hinv
  · rw [joinResolve]
    split <;> simp
  · rw [joinResolve]
    split <;> simp

theorem msgInv_joinRegister (st : ServerState) (a b c d e f bnd : String)
    (hinv : msgInv st bnd) : msgInv (joinRegister st a b c d e f).1 bnd :=
  msgInv_ext _ st bnd (joinRegister_fst_dbMessages st a b c d e f)
    (joinRegister_fst_chatCache st a b c d e f) hinv

theorem msgInv_systemNotify (st : ServerState) (sid text mrole mN mU ts bnd : String)
    (hinv : msgInv st bnd) (hts : tsLe bnd ts = true) :
    msgInv (systemNotify st sid text mrole mN mU ts).1 ts := by
  rw [systemNotify]
  dsimp only
  exact msgInv_append st
    { id := generateUniqueMessageId mN mU, sessionId := sid, sender := "system"
      senderName := "System", text := text, timestamp := ts
      type := "notification", role := mrole, recipient := none }
    (generateUniqueMessageId mN mU) bnd hinv hts
    (by decide : ("System" : String) ≠ "") rfl

theorem msgInv_joinHistory (st : ServerState) (a b c d bnd : String)
    (hinv : msgInv st bnd) : msgInv (joinHistory st a b c d).1 bnd := by
  rw [joinHistory]
  split
  · exact hinv
  · split
    · dsimp only
      exact msgInv_loadChatHistory st a bnd hinv
    · exact hinv

theorem msgInv_handleJoinRoom (st : ServerState)
    (sock sessionId u role supplied uuid mN mU ts bnd : String)
    (hinv : msgInv st bnd) (hts : tsLe bnd ts = true) :
    msgInv (handleJoinRoom st sock sessionId u role supplied uuid mN mU ts).1 ts := by
  rw [handleJoinRoom]
  by_cases hsid : sessionId = ""
  · rw [if_pos hsid]
    exact msgInv_mono st bnd ts hts hinv
  · rw [if_neg hsid]
    dsimp only
    exact msgInv_joinHistory _ _ _ _ _ ts
      (msgInv_systemNotify _ _ _ _ _ _ _ bnd
        (msgInv_joinRegister _ _ _ _ _ _ _ bnd
          (msgInv_loadStudents _ _ bnd
            (msgInv_loadChatHistory _ _ bnd
              (msgInv_ensureSessionExists _ _ bnd
                (msgInv_socketData _ _ bnd
                  (msgInv_joinResolve _ _ _ _ _ _ bnd hinv)))))) hts)

set_option maxHeartbeats 1000000 in
theorem msgInv_handleSendMessage (st : ServerState) (sockId : String) (d : SendData)
    (p : MsgPayload) (g1 g2 r1 r2 now bnd : String)
    (hmsg : d.message = some p)
    (hinv : msgInv st bnd)
    (hts : tsLe bnd (jsOr p.timestamp now) = true) :
    msgInv (handleSendMessage st sockId (some d) g1 g2 r1 r2 now).1
      (jsOr p.timestamp now) := by
  rw [handleSendMessage]
  dsimp only
  by_cases hsid : d.sessionId = ""
  · rw [if_pos hsid]
    exact msgInv_mono st bnd _ hts hinv
  · rw [if_neg hsid, hmsg]
    dsimp only
    have hstep : msgInv (addMessageToCache
        { st with dbMessages := (st.dbMessages ++ [sentRow st sockId d p g1 g2 r1 r2 now]) }
        (sentMut st sockId d p g1 g2 r1 r2 now)) (jsOr p.timestamp now) :=
      msgInv_append st
        (formatMessage d p d.sessionId (sendSenderInfo st sockId d)
          (generateUniqueMessageId g1 g2) now)
        (generateUniqueMessageId r1 r2) bnd hinv hts
        (jsOr_ne_empty _ _ (jsOr_ne_empty _ _ (by decide)))
        (jsOptOrNone_jsStrOrNone d.recipient)
    repeat' split
    all_goals exact hstep

theorem msgInv_handleLeaveRoom (st : ServerState)
    (sockId sessionId username studentId mN mU ts bnd : String)
    (hinv : msgInv st bnd) (hts : tsLe bnd ts = true) :
    msgInv (handleLeaveRoom st sockId sessionId username studentId mN mU ts).1 ts := by
  rw [handleLeaveRoom]
  dsimp only
  cases halo : alookup st.socketData sockId with
  | some u =>
    dsimp only
    have hq := msgInv_systemNotify st sessionId (username ++ " has left the room")
      (jsOr u.role "student") mN mU ts bnd hinv hts
    repeat' split
    all_goals exact hq
  | none =>
    dsimp only
    have hq := msgInv_systemNotify st sessionId (username ++ " has left the room")
      "student" mN mU ts bnd hinv hts
    repeat' split
    all_goals exact hq

theorem msgInv_handleDisconnect (st : ServerState) (sockId mN mU ts bnd : String)
    (hinv : msgInv st bnd) (hts : tsLe bnd ts = true) :
    msgInv (handleDisconnect st sockId mN mU ts).1 ts := by
  unfold handleDisconnect
  split
  · exact msgInv_mono st bnd ts hts hinv
  · dsimp only
    split
    · exact msgInv_mono st bnd ts hts hinv
    · dsimp only
      refine msgInv_systemNotify _ _ _ _ _ _ _ bnd ?_ hts
      repeat' split
      all_goals exact hinv

theorem msgInv_step (st : ServerState) (e : SEv) (bnd : String)
    (hinv : msgInv st bnd) (hts : tsLe bnd (evTs e) = true) :
    msgInv (stepEv st e).1 (evTs e) := by
  cases e with
  | evJoin sock sid u role supplied uuid mN mU ts =>
    exact msgInv_handleJoinRoom st sock sid u role supplied uuid mN mU ts bnd hinv hts
  | evSend sock md g1 g2 r1 r2 t =>
    cases md with
    | none => exact msgInv_mono st bnd _ hts hinv
    | some d =>
      have hev : evTs (SEv.evSend sock (some d) g1 g2 r1 r2 t) =
          (match d.message with | some q => jsOr q.timestamp t | none => t) := rfl
      cases hm : d.message with
      | none =>
        rw [hev, hm] at hts ⊢
        dsimp only at hts ⊢
        show msgInv (handleSendMessage st sock (some d) g1 g2 r1 r2 t).1 t
        rw [handleSendMessage]
        dsimp only
        split
        · exact msgInv_mono st bnd t hts hinv
        · rw [hm]
          exact msgInv_mono st bnd t hts hinv
      | some p =>
        rw [hev, hm] at hts ⊢
        dsimp only at hts ⊢
        exact msgInv_handleSendMessage st sock d p g1 g2 r1 r2 t bnd hm hinv hts
  | evLeave sock sid u stid mN mU ts =>
    exact msgInv_handleLeaveRoom st sock sid u stid mN mU ts bnd hinv hts
  | evDisc sock mN mU ts =>
    exact msgInv_handleDisconnect st sock mN mU ts bnd hinv hts

theorem msgInv_run (tr : List SEv) (st : ServerState) (bnd : String)
    (hinv : msgInv st bnd) (hwf : wfChainB bnd tr = true) :
    msgInv (runEvs st tr) (lastTs bnd tr) := by
  induction tr generalizing st bnd with
  | nil => exact hinv
  | cons e tr ih =>
    rw [wfChainB, Bool.and_eq_true] at hwf
    show msgInv (runEvs (stepEv st e).1 tr) (lastTs (evTs e) tr)
    exact ih (stepEv st e).1 (evTs e) (msgInv_step st e bnd hinv hwf.1) hwf.2

theorem msgInv_initState (bnd : String) : msgInv initState bnd := by
  refine ⟨?_, ?_, ?_⟩
  · intro sid
    rfl
  · exact List.Pairwise.nil
  · intro r hr
    exact absurd hr (List.not_mem_nil r)

theorem chatHistoryEmits_append (a b : List Emit) :
    chatHistoryEmits (a ++ b) = chatHistoryEmits a ++ chatHistoryEmits b := by
  simp [chatHistoryEmits]

theorem chatHistoryEmits_matchOpt (o : Option String) (m : MessageIn) :
    chatHistoryEmits (match o with
      | some tid => [Emit.message (Target.sock tid) m]
      | none => []) = [] := by
  cases o <;> rfl

theorem hydratedHistory_of_inv2 (st : ServerState) (sid : String)
    (hinv : ∃ bnd, msgInv st bnd) :
    hydratedHistory st sid = getSessionMessages sid st.dbMessages := by
  obtain ⟨bnd, hi⟩ := hinv
  exact hydratedHistory_of_inv st sid bnd hi

set_option maxHeartbeats 1000000 in
theorem handleJoinRoom_teacher_history (st : ServerState)
    (sock sessionId u role supplied uuid mN mU ts bnd : String)
    (hsid : sessionId ≠ "") (hrole : jsOr role "student" = "teacher")
    (hinv : msgInv st bnd) (hts : tsLe bnd ts = true) :
    chatHistoryEmits (handleJoinRoom st sock sessionId u role supplied uuid mN mU ts).2 =
      [(Target.sock sock, getSessionMessages sessionId
        (handleJoinRoom st sock sessionId u role supplied uuid mN mU ts).1.dbMessages)] := by
  simp only [handleJoinRoom]
  rw [if_neg hsid, hrole, joinResolve_teacher _ _ _ _ _ _ (by decide), joinRegister_teacher]
  rw [joinHistory, if_neg (by decide : ¬("teacher" : String) = "student"),
    if_pos (rfl : ("teacher" : String) = "teacher")]
  dsimp only
  simp only [chatHistoryEmits_append, chatHistoryEmits_matchOpt]
  simp only [chatHistoryEmits, List.filterMap_cons, List.filterMap_nil]
  simp only [loadChatHistory_fst, loadChatHistory_snd_dbMessages]
  rw [hydratedHistory_of_inv2 _ sessionId ⟨ts,
    msgInv_systemNotify _ _ _ _ _ _ _ bnd
      (msgInv_setTeacherSocketId _ _ _ bnd
        (msgInv_loadStudents _ _ bnd
          (msgInv_loadChatHistory _ _ bnd
            (msgInv_ensureSessionExists _ _ bnd
              (msgInv_socketData _ _ bnd hinv))))) hts⟩]
  simp

/-- C4, counterexample to the claim as stated: after Ana sends a message
whose payload back-dates its timestamp to `"0000"`, the history emitted to
a joining teacher is the cache in persist order (join notifications first,
then the back-dated message), which differs from the session's persisted
messages ordered by timestamp ascending. -/
theorem c4_counterexample :
    chatHistoryEmits
        (handleJoinRoom c4St "t2" "12345" "MrT" "teacher" "" "u7" "900" "m9" "TC").2 ≠
      [(Target.sock "t2", getSessionMessages "12345"
        (handleJoinRoom c4St "t2" "12345" "MrT" "teacher" "" "u7" "900" "m9" "TC").1.dbMessages)] := by
  decide

/-- C4 (amended): in any run from the pristine state whose persisted
message timestamps never decrease (as the server's own clock readings do),
a joining teacher is emitted exactly one `chat_history`, equal to every
message persisted for the session — including the just-persisted join
notification — ordered by timestamp ascending, with no filtering. -/
theorem c4_amended_theorem (tr : List SEv) (b : String)
    (sock sessionId u role supplied uuid mN mU ts : String)
    (hwf : wfChainB b tr = true)
    (hts : tsLe (lastTs b tr) ts = true)
    (hsid : sessionId ≠ "") (hrole : jsOr role "student" = "teacher") :
    chatHistoryEmits
      (stepEv (runEvs initState tr)
        (SEv.evJoin sock sessionId u role supplied uuid mN mU ts)).2 =
      [(Target.sock sock, getSessionMessages sessionId
        (stepEv (runEvs initState tr)
          (SEv.evJoin sock sessionId u role supplied uuid mN mU ts)).1.dbMessages)] :=
  handleJoinRoom_teacher_history (runEvs initState tr) sock sessionId u role supplied uuid
    mN mU ts (lastTs b tr) hsid hrole
    (msgInv_run tr initState b (msgInv_initState b) hwf) hts

/-- C4, witness: Ana joins at clock `"TB"`, then the teacher joins at
`"TC"`; the amended theorem hands the teacher the full ordered history. -/
theorem c4_witness :
    wfChainB "TA" [SEv.evJoin "a1" "12345" "Ana" "" "" "u1" "101" "mB" "TB"] = true
    ∧ tsLe (lastTs "TA" [SEv.evJoin "a1" "12345" "Ana" "" "" "u1" "101" "mB" "TB"]) "TC" = true
    ∧ ("12345" : String) ≠ ""
    ∧ jsOr "teacher" "student" = "teacher"
    ∧ chatHistoryEmits
        (stepEv (runEvs initState [SEv.evJoin "a1" "12345" "Ana" "" "" "u1" "101" "mB" "TB"])
          (SEv.evJoin "t1" "12345" "MrT" "teacher" "" "u0" "102" "mC" "TC")).2 =
        [(Target.sock "t1", getSessionMessages "12345"
          (stepEv (runEvs initState [SEv.evJoin "a1" "12345" "Ana" "" "" "u1" "101" "mB" "TB"])
            (SEv.evJoin "t1" "12345" "MrT" "teacher" "" "u0" "102" "mC" "TC")).1.dbMessages)] :=
  ⟨by decide, by decide, by decide, by decide,
    c4_amended_theorem [SEv.evJoin "a1" "12345" "Ana" "" "" "u1" "101" "mB" "TB"] "TA"
      "t1" "12345" "MrT" "teacher" "" "u0" "102" "mC" "TC"
      (by decide) (by decide) (by decide) (by decide)⟩

/-! ## Claim C3 (amended, widened): list and resolver lemmas -/

theorem findIdx?_start_spec {α : Type} (p : α → Bool) :
    ∀ (l : List α) (k i : Nat), List.findIdx? p l k = some i →
      ∃ j, ∃ h : j < l.length, i = k + j ∧ p l[j] = true := by
  intro l
  induction l with
  | nil =>
    intro k i h
    simp [List.findIdx?] at h
  | cons a as ih =>
    intro k i h
    rw [List.findIdx?] at h
    by_cases hp : p a = true
    · rw [if_pos hp] at h
      cases h
      exact ⟨0, by simp, by omega, by simpa using hp⟩
    · rw [if_neg hp] at h
      obtain ⟨j, hj, hik, hpj⟩ := ih (k + 1) i h
      refine ⟨j + 1, by simp only [List.length_cons]; omega, by omega, ?_⟩
      simpa using hpj

theorem findIdx?_spec {α : Type} (p : α → Bool) (l : List α) (i : Nat)
    (h : List.findIdx? p l = some i) : ∃ h : i < l.length, p l[i] = true := by
  obtain ⟨j, hj, hik, hpj⟩ := findIdx?_start_spec p l 0 i h
  have hij : i = j := by omega
  subst hij
  exact ⟨hj, hpj⟩

theorem mem_updateList (l : List StudentRec) (s r : StudentRec)
    (h : r ∈ updateList l s) : r ∈ l ∨ r = s := by
  unfold updateList at h
  split at h
  · rcases List.mem_or_eq_of_mem_set h with h1 | h1
    · exact Or.inl h1
    · exact Or.inr h1
  · rcases List.mem_append.1 h with h1 | h1
    · exact Or.inl h1
    · exact Or.inr (List.mem_singleton.1 h1)

theorem self_mem_updateList (l : List StudentRec) (s : StudentRec) :
    s ∈ updateList l s := by
  unfold updateList
  split
  · next i hi =>
    obtain ⟨hlen, _⟩ := findIdx?_spec _ l i hi
    exact List.mem_set l i hlen s
  · exact List.mem_append_right l (List.mem_singleton_self s)

theorem updateList_exists (l : List StudentRec) (s : StudentRec) (P : StudentRec → Prop)
    (hw : ∃ w ∈ l, P w)
    (halt : P s ∨ ∀ r ∈ l, (r.persistentId == s.persistentId || r.id == s.id) = true → ¬ P r) :
    ∃ w ∈ updateList l s, P w := by
  rcases halt with hs | hno
  · exact ⟨s, self_mem_updateList l s, hs⟩
  · unfold updateList
    split
    · next i hi =>
      obtain ⟨hlen, hpi⟩ := findIdx?_spec _ l i hi
      obtain ⟨w, hwmem, hwP⟩ := hw
      obtain ⟨j, hj, hje⟩ := List.mem_iff_getElem.1 hwmem
      have hji : j ≠ i := by
        intro hcontra
        subst hcontra
        apply hno w hwmem _ hwP
        rw [← hje]
        exact hpi
      refine ⟨w, ?_, hwP⟩
      rw [List.mem_iff_getElem]
      refine ⟨j, by rw [List.length_set]; exact hj, ?_⟩
      rw [List.getElem_set_ne (Ne.symm hji), hje]
    · obtain ⟨w, hwmem, hwP⟩ := hw
      exact ⟨w, List.mem_append_left _ hwmem, hwP⟩

theorem updateList_pid_ne (l : List StudentRec) (s : StudentRec) (X : String)
    (hl : ∀ r ∈ l, r.persistentId ≠ X) (hs : s.persistentId ≠ X) :
    ∀ r ∈ updateList l s, r.persistentId ≠ X := by
  intro r hr
  rcases mem_updateList l s r hr with h | h
  · exact hl r h
  · rw [h]
    exact hs

theorem updateList_classRec (lowu X : String) (S : String → Bool)
    (l : List StudentRec) (s : StudentRec)
    (hl : ∀ r ∈ l, classRec lowu X S r) (hs : classRec lowu X S s) :
    ∀ r ∈ updateList l s, classRec lowu X S r := by
  intro r hr
  rcases mem_updateList l s r hr with h | h
  · exact hl r h
  · rw [h]
    exact hs

theorem saveStudentDbList_pidX_all (sessionId lowu X : String) (db : List StudentRec)
    (s : StudentRec)
    (hC : ∀ r ∈ db, r.persistentId = X →
      r.sessionId = sessionId ∧ toLowerStr r.username = lowu)
    (hex : ∃ r ∈ db, r.sessionId = sessionId ∧ r.persistentId = X)
    (hs1 : s.persistentId = X → toLowerStr s.username = lowu) :
    ∀ r ∈ saveStudentDbList db s, r.persistentId = X →
      r.sessionId = sessionId ∧ toLowerStr r.username = lowu := by
  intro r hr hpid
  rw [saveStudentDbList] at hr
  split at hr
  · obtain ⟨r0, hr0, hr0e⟩ := List.mem_map.1 hr
    by_cases hp : (r0.persistentId == s.persistentId) = true
    · rw [if_pos hp] at hr0e
      have hr0pid : r0.persistentId = X := by
        rw [← hr0e] at hpid
        exact hpid
      have h0 := hC r0 hr0 hr0pid
      have hsX : s.persistentId = X := by
        rw [beq_iff_eq] at hp
        rw [← hp]
        exact hr0pid
      constructor
      · rw [← hr0e]
        exact h0.1
      · rw [← hr0e]
        exact hs1 hsX
    · rw [if_neg hp] at hr0e
      rw [← hr0e] at hpid ⊢
      exact hC r0 hr0 hpid
  · rename_i hany
    rcases List.mem_append.1 hr with h1 | h1
    · exact hC r h1 hpid
    · rw [List.mem_singleton.1 h1] at hpid
      obtain ⟨w, hw, hw1, hw2⟩ := hex
      exact absurd (List.any_eq_true.2 ⟨w, hw, by rw [beq_iff_eq, hw2, hpid]⟩) hany

theorem saveStudentDbList_pidX_ex (sessionId X : String) (db : List StudentRec)
    (s : StudentRec)
    (hex : ∃ r ∈ db, r.sessionId = sessionId ∧ r.persistentId = X) :
    ∃ r ∈ saveStudentDbList db s, r.sessionId = sessionId ∧ r.persistentId = X := by
  obtain ⟨w, hw, hw1, hw2⟩ := hex
  rw [saveStudentDbList]
  split
  · refine ⟨if w.persistentId == s.persistentId then
        { w with username := s.username, status := s.status
                 lastActive := s.lastActive, id := s.id } else w,
      List.mem_map_of_mem _ hw, ?_⟩
    split
    · exact ⟨hw1, hw2⟩
    · exact ⟨hw1, hw2⟩
  · exact ⟨w, List.mem_append_left _ hw, hw1, hw2⟩

theorem resolve_lowu (students db : List StudentRec)
    (sessionId username supplied uuid lowu X : String) (S : String → Bool)
    (hcl : ∀ r ∈ students, classRec lowu X S r)
    (hex : ∃ r ∈ students, toLowerStr r.username = lowu)
    (hu : toLowerStr username = lowu) :
    resolveStudentId students db sessionId username supplied uuid = X := by
  rw [resolveStudentId]
  cases hf : students.find? (fun s => toLowerStr s.username == toLowerStr username) with
  | none =>
    obtain ⟨w, hw, hwl⟩ := hex
    rw [List.find?_eq_none] at hf
    exact absurd (by rw [beq_iff_eq, hwl, hu]) (hf w hw)
  | some s =>
    dsimp only
    have hs := List.find?_some hf
    rw [beq_iff_eq, hu] at hs
    exact ((hcl s (List.mem_of_find?_eq_some hf)).1).1 hs

theorem resolve_ne_our (students db : List StudentRec)
    (sessionId username supplied uuid lowu X : String) (S : String → Bool)
    (hcl : ∀ r ∈ students, classRec lowu X S r)
    (hu : toLowerStr username ≠ lowu)
    (hfresh : generateStudentId username sessionId uuid ≠ X)
    (hC : ∀ r ∈ db, r.persistentId = X →
      r.sessionId = sessionId ∧ toLowerStr r.username = lowu)
    (hCex : ∃ r ∈ db, r.sessionId = sessionId ∧ r.persistentId = X) :
    resolveStudentId students db sessionId username supplied uuid ≠ X := by
  rw [resolveStudentId]
  cases hf : students.find? (fun s => toLowerStr s.username == toLowerStr username) with
  | some s =>
    dsimp only
    have hsname := List.find?_some hf
    rw [beq_iff_eq] at hsname
    intro hpid
    apply hu
    rw [← hsname]
    exact ((hcl s (List.mem_of_find?_eq_some hf)).1).2 hpid
  | none =>
    dsimp only
    by_cases hsup : supplied = ""
    · rw [if_pos hsup]
      exact hfresh
    · rw [if_neg hsup]
      cases hfs : findStudent db sessionId supplied "" with
      | some existing =>
        dsimp only
        split
        · exact hfresh
        · next hne2 =>
          intro hX
          rw [findStudent, if_pos hsup] at hfs
          have hprop := List.find?_some hfs
          rw [Bool.and_eq_true, beq_iff_eq, beq_iff_eq] at hprop
          have hmem := List.mem_of_find?_eq_some hfs
          have hCx := hC existing hmem (by rw [hprop.2, hX])
          simp only [ne_eq, not_not] at hne2
          exact hu (by rw [← hne2]; exact hCx.2)
      | none =>
        dsimp only
        intro hX
        rw [findStudent, if_pos hsup, List.find?_eq_none] at hfs
        obtain ⟨w, hw, hw1, hw2⟩ := hCex
        refine hfs w hw ?_
        rw [Bool.and_eq_true, beq_iff_eq, beq_iff_eq]
        exact ⟨hw1, by rw [hw2, ← hX]⟩

theorem resolve_ne_other (students db : List StudentRec)
    (sid username supplied uuid X : String)
    (hst : ∀ r ∈ students, r.persistentId ≠ X)
    (hfresh : generateStudentId username sid uuid ≠ X)
    (hsupp : supplied ≠ X) :
    resolveStudentId students db sid username supplied uuid ≠ X := by
  rw [resolveStudentId]
  cases hf : students.find? (fun s => toLowerStr s.username == toLowerStr username) with
  | some s =>
    dsimp only
    exact hst s (List.mem_of_find?_eq_some hf)
  | none =>
    dsimp only
    by_cases hsup : supplied = ""
    · rw [if_pos hsup]
      exact hfresh
    · rw [if_neg hsup]
      cases hfs : findStudent db sid supplied "" with
      | some existing =>
        dsimp only
        split
        · exact hfresh
        · exact hsupp
      | none =>
        dsimp only
        exact hsupp

theorem joinResolvedId_eq (st : ServerState) (sid username supplied uuid : String) :
    joinResolvedId st sid username supplied uuid =
      resolveStudentId (hydratedStudents st sid) st.dbStudents sid
        username supplied uuid := by
  rw [joinResolvedId, loadStudents_fst, loadStudents_snd_dbStudents]

theorem hydrated_pid_ne (sessionId lowu X : String) (st : ServerState)
    (sid : String) (hq : sid ≠ sessionId)
    (hC : ∀ r ∈ st.dbStudents, r.persistentId = X →
      r.sessionId = sessionId ∧ toLowerStr r.username = lowu)
    (hD : ∀ z, z ≠ sessionId → ∀ r ∈ roomStudentsOf st z, r.persistentId ≠ X) :
    ∀ r ∈ hydratedStudents st sid, r.persistentId ≠ X := by
  intro r hrm
  rw [hydratedStudents] at hrm
  by_cases hc : roomStudentsOf st sid ≠ []
  · rw [if_pos hc] at hrm
    exact hD sid hq r hrm
  · rw [if_neg hc] at hrm
    rw [getSessionStudents, List.mem_filter, beq_iff_eq] at hrm
    intro hX
    exact hq (hrm.2.symm.trans (hC r hrm.1 hX).1)

theorem joinRegister_student_roomStudents_other (st : ServerState)
    (sessionId sockId sanitized userRole studentId ts z : String)
    (h : userRole ≠ "teacher") (hz : z ≠ sessionId) :
    roomStudentsOf (joinRegister st sessionId sockId sanitized userRole studentId ts).1 z =
      roomStudentsOf st z := by
  rw [joinRegister, if_neg h]
  show roomStudentsOf (updateStudentInCache st sessionId
      { id := sockId, persistentId := studentId, username := sanitized
        status := "online", lastActive := ts, sessionId := sessionId }) z = _
  rw [roomStudentsOf_updateStudentInCache, if_neg hz]

theorem handleJoinRoom_student_roomStudents_other (st : ServerState)
    (sock sessionId u role supplied uuid mN mU ts z : String)
    (hsid : sessionId ≠ "") (hrole : jsOr role "student" = "student") (hz : z ≠ sessionId) :
    roomStudentsOf (handleJoinRoom st sock sessionId u role supplied uuid mN mU ts).1 z =
      roomStudentsOf st z := by
  simp only [handleJoinRoom]
  rw [if_neg hsid, hrole, joinResolve_student]
  rw [roomStudentsOf_ext _ _ (joinHistory_fst_roomStudents _ _ _ _ _)]
  rw [roomStudentsOf_ext _ _ (systemNotify_fst_roomStudents _ _ _ _ _ _ _)]
  rw [joinRegister_student_roomStudents_other _ _ _ _ _ _ _ _ (by decide) hz]
  rw [roomStudentsOf_loadStudents, if_neg hz]
  have hfield : ((loadChatHistory (ensureSessionExists
      { (loadStudents st sessionId).2 with socketData :=
        (aset (loadStudents st sessionId).2.socketData sock
          { currentRoom := sessionId, username := jsOr u "Anonymous", role := "student"
            socketId := sock
            persistentId := joinResolvedId st sessionId (jsOr u "Anonymous") supplied uuid }) }
      sessionId) sessionId).2).roomStudents =
      ((loadStudents st sessionId).2).roomStudents := by
    simp
  rw [roomStudentsOf_ext _ _ hfield]
  rw [roomStudentsOf_loadStudents, if_neg hz]

theorem handleJoinRoom_teacher_roomStudents_other (st : ServerState)
    (sock sessionId u role supplied uuid mN mU ts z : String)
    (hsid : sessionId ≠ "") (hrole : jsOr role "student" = "teacher") (hz : z ≠ sessionId) :
    roomStudentsOf (handleJoinRoom st sock sessionId u role supplied uuid mN mU ts).1 z =
      roomStudentsOf st z := by
  simp only [handleJoinRoom]
  rw [if_neg hsid, hrole, joinResolve_teacher _ _ _ _ _ _ (by decide)]
  rw [roomStudentsOf_ext _ _ (joinHistory_fst_roomStudents _ _ _ _ _)]
  rw [roomStudentsOf_ext _ _ (systemNotify_fst_roomStudents _ _ _ _ _ _ _)]
  rw [joinRegister_teacher_roomStudents]
  rw [roomStudentsOf_loadStudents, if_neg hz]
  have hfield : ((loadChatHistory (ensureSessionExists
      { st with socketData := (aset st.socketData sock
        { currentRoom := sessionId, username := jsOr u "Anonymous", role := "teacher"
          socketId := sock, persistentId := supplied }) }
      sessionId) sessionId).2).roomStudents = st.roomStudents := by
    simp
  rw [roomStudentsOf_ext _ _ hfield]

theorem c3Inv_statusUpdate (sessionId lowu X : String) (S : String → Bool)
    (st st' : ServerState) (sid0 : String) (s upd : StudentRec)
    (hmem : s ∈ roomStudentsOf st sid0)
    (h1 : upd.persistentId = s.persistentId) (h2 : upd.username = s.username)
    (h3 : upd.id = s.id)
    (hdb : st'.dbStudents = saveStudentDbList st.dbStudents upd)
    (hrs : st'.roomStudents = aset st.roomStudents sid0
      (updateList (roomStudentsOf st sid0) upd))
    (hinv : c3Inv sessionId lowu X S st) :
    c3Inv sessionId lowu X S st' := by
  obtain ⟨hB1, hB2, hB3, hC, hCex, hD⟩ := hinv
  have hz : ∀ z, roomStudentsOf st' z =
      if z = sid0 then updateList (roomStudentsOf st sid0) upd
      else roomStudentsOf st z := by
    intro z
    rw [roomStudentsOf_eq, hrs]
    by_cases h : z = sid0
    · rw [if_pos h, h, alookup_aset_self]
      rfl
    · rw [if_neg h, alookup_aset_ne _ _ _ _ h]
      rfl
  by_cases h0 : sid0 = sessionId
  · subst h0
    have hcs := hB2 s hmem
    have hclass_upd : classRec lowu X S upd := by
      unfold classRec at hcs ⊢
      rw [h1, h2, h3]
      exact hcs
    refine ⟨?_, ?_, ?_, ?_, ?_, ?_⟩
    · rw [hz, if_pos rfl]
      exact updateList_ne_nil _ _
    · rw [hz, if_pos rfl]
      exact updateList_classRec lowu X S _ _ hB2 hclass_upd
    · rw [hz, if_pos rfl]
      apply updateList_exists _ _ _ hB3
      by_cases hlo : toLowerStr s.username = lowu
      · left
        rw [h2]
        exact hlo
      · right
        intro r hrm hmatch hrlo
        have hcr := hB2 r hrm
        rw [Bool.or_eq_true] at hmatch
        rcases hmatch with hm | hm
        · rw [beq_iff_eq, h1] at hm
          exact hlo ((hcs.1).2 (by rw [← hm]; exact (hcr.1).1 hrlo))
        · rw [beq_iff_eq, h3] at hm
          exact hlo ((hcs.2).2 (by rw [← hm]; exact (hcr.2).1 hrlo))
    · rw [hdb]
      apply saveStudentDbList_pidX_all sid0 lowu X _ _ hC hCex
      intro hupdX
      rw [h2]
      exact (hcs.1).2 (by rw [← h1]; exact hupdX)
    · rw [hdb]
      exact saveStudentDbList_pidX_ex sid0 X _ _ hCex
    · intro sid hsid r hrm
      rw [hz, if_neg hsid] at hrm
      exact hD sid hsid r hrm
  · have hpidne : upd.persistentId ≠ X := by
      rw [h1]
      exact hD sid0 h0 s hmem
    refine ⟨?_, ?_, ?_, ?_, ?_, ?_⟩
    · rw [hz, if_neg (fun hh => h0 hh.symm)]
      exact hB1
    · rw [hz, if_neg (fun hh => h0 hh.symm)]
      exact hB2
    · rw [hz, if_neg (fun hh => h0 hh.symm)]
      exact hB3
    · rw [hdb]
      exact saveStudentDbList_pidX_all sessionId lowu X _ _ hC hCex
        (fun hx => absurd hx hpidne)
    · rw [hdb]
      exact saveStudentDbList_pidX_ex sessionId X _ _ hCex
    · intro sid hsid r hrm
      rw [hz] at hrm
      by_cases hzz : sid = sid0
      · rw [if_pos hzz] at hrm
        exact updateList_pid_ne _ _ X (hD sid0 h0) hpidne r hrm
      · rw [if_neg hzz] at hrm
        exact hD sid hsid r hrm

theorem c3Inv_join_teacher (sessionId lowu X : String) (S : String → Bool)
    (st : ServerState) (sock sid u role supplied uuid mN mU ts : String)
    (hrole : jsOr role "student" = "teacher")
    (hinv : c3Inv sessionId lowu X S st) :
    c3Inv sessionId lowu X S
      (handleJoinRoom st sock sid u role supplied uuid mN mU ts).1 := by
  obtain ⟨hB1, hB2, hB3, hC, hCex, hD⟩ := hinv
  by_cases hsid : sid = ""
  · rw [handleJoinRoom, if_pos hsid]
    exact ⟨hB1, hB2, hB3, hC, hCex, hD⟩
  · have hdbs := handleJoinRoom_teacher_dbStudents st sock sid u role supplied uuid
      mN mU ts hsid hrole
    have hsame := handleJoinRoom_teacher_roomStudents st sock sid u role supplied uuid
      mN mU ts hsid hrole
    have hother := fun z (hz : z ≠ sid) =>
      handleJoinRoom_teacher_roomStudents_other st sock sid u role supplied uuid
        mN mU ts z hsid hrole hz
    by_cases hq : sid = sessionId
    · subst hq
      have hhyd : hydratedStudents st sid = roomStudentsOf st sid := by
        rw [hydratedStudents, if_pos hB1]
      refine ⟨?_, ?_, ?_, ?_, ?_, ?_⟩
      · rw [hsame, hhyd]
        exact hB1
      · rw [hsame, hhyd]
        exact hB2
      · rw [hsame, hhyd]
        exact hB3
      · rw [hdbs]
        exact hC
      · rw [hdbs]
        exact hCex
      · intro z hz r hrm
        rw [hother z hz] at hrm
        exact hD z hz r hrm
    · refine ⟨?_, ?_, ?_, ?_, ?_, ?_⟩
      · rw [hother sessionId (fun hh => hq hh.symm)]
        exact hB1
      · rw [hother sessionId (fun hh => hq hh.symm)]
        exact hB2
      · rw [hother sessionId (fun hh => hq hh.symm)]
        exact hB3
      · rw [hdbs]
        exact hC
      · rw [hdbs]
        exact hCex
      · intro z hz r hrm
        by_cases hzs : z = sid
        · rw [hzs, hsame] at hrm
          exact hydrated_pid_ne sessionId lowu X st sid hq hC hD r hrm
        · rw [hother z hzs] at hrm
          exact hD z hz r hrm

theorem c3Inv_join_student_lowu (sessionId lowu X : String) (S : String → Bool)
    (st : ServerState) (sock u role supplied uuid mN mU ts : String)
    (hsid : sessionId ≠ "") (hrole : jsOr role "student" = "student")
    (hu : toLowerStr (jsOr u "Anonymous") = lowu) (hS : S sock = true)
    (hinv : c3Inv sessionId lowu X S st) :
    c3Inv sessionId lowu X S
      (handleJoinRoom st sock sessionId u role supplied uuid mN mU ts).1 := by
  obtain ⟨hB1, hB2, hB3, hC, hCex, hD⟩ := hinv
  have hhyd : hydratedStudents st sessionId = roomStudentsOf st sessionId := by
    rw [hydratedStudents, if_pos hB1]
  have hY : joinResolvedId st sessionId (jsOr u "Anonymous") supplied uuid = X := by
    rw [joinResolvedId_eq, hhyd]
    exact resolve_lowu _ _ _ _ _ _ _ _ S hB2 hB3 hu
  have hdbs := handleJoinRoom_student_dbStudents st sock sessionId u role supplied uuid
    mN mU ts hsid hrole
  have hsame := handleJoinRoom_student_roomStudents st sock sessionId u role supplied uuid
    mN mU ts hsid hrole
  have hother := fun z (hz : z ≠ sessionId) =>
    handleJoinRoom_student_roomStudents_other st sock sessionId u role supplied uuid
      mN mU ts z hsid hrole hz
  have hclass_rec : classRec lowu X S
      { id := sock
        persistentId := joinResolvedId st sessionId (jsOr u "Anonymous") supplied uuid
        username := jsOr u "Anonymous", status := "online", lastActive := ts
        sessionId := sessionId } := by
    constructor
    · constructor
      · intro _
        exact hY
      · intro _
        exact hu
    · constructor
      · intro _
        exact hS
      · intro _
        exact hu
  refine ⟨?_, ?_, ?_, ?_, ?_, ?_⟩
  · rw [hsame]
    exact updateList_ne_nil _ _
  · rw [hsame, hhyd]
    exact updateList_classRec lowu X S _ _ hB2 hclass_rec
  · rw [hsame]
    exact ⟨_, self_mem_updateList _ _, hu⟩
  · rw [hdbs]
    apply saveStudentDbList_pidX_all sessionId lowu X _ _ hC hCex
    intro _
    exact hu
  · rw [hdbs]
    exact saveStudentDbList_pidX_ex sessionId X _ _ hCex
  · intro z hz r hrm
    rw [hother z hz] at hrm
    exact hD z hz r hrm

theorem c3Inv_join_student_other_name (sessionId lowu X : String) (S : String → Bool)
    (st : ServerState) (sock u role supplied uuid mN mU ts : String)
    (hsid : sessionId ≠ "") (hrole : jsOr role "student" = "student")
    (hu : toLowerStr (jsOr u "Anonymous") ≠ lowu) (hS : S sock = false)
    (hfresh : generateStudentId (jsOr u "Anonymous") sessionId uuid ≠ X)
    (hinv : c3Inv sessionId lowu X S st) :
    c3Inv sessionId lowu X S
      (handleJoinRoom st sock sessionId u role supplied uuid mN mU ts).1 := by
  obtain ⟨hB1, hB2, hB3, hC, hCex, hD⟩ := hinv
  have hhyd : hydratedStudents st sessionId = roomStudentsOf st sessionId := by
    rw [hydratedStudents, if_pos hB1]
  have hY : joinResolvedId st sessionId (jsOr u "Anonymous") supplied uuid ≠ X := by
    rw [joinResolvedId_eq, hhyd]
    exact resolve_ne_our _ _ _ _ _ _ _ _ S hB2 hu hfresh hC hCex
  have hdbs := handleJoinRoom_student_dbStudents st sock sessionId u role supplied uuid
    mN mU ts hsid hrole
  have hsame := handleJoinRoom_student_roomStudents st sock sessionId u role supplied uuid
    mN mU ts hsid hrole
  have hother := fun z (hz : z ≠ sessionId) =>
    handleJoinRoom_student_roomStudents_other st sock sessionId u role supplied uuid
      mN mU ts z hsid hrole hz
  have hclass_rec : classRec lowu X S
      { id := sock
        persistentId := joinResolvedId st sessionId (jsOr u "Anonymous") supplied uuid
        username := jsOr u "Anonymous", status := "online", lastActive := ts
        sessionId := sessionId } := by
    constructor
    · constructor
      · intro hl
        exact absurd hl hu
      · intro hp
        exact absurd hp hY
    · constructor
      · intro hl
        exact absurd hl hu
      · intro hSi
        exact absurd hSi (by simp [hS])
  refine ⟨?_, ?_, ?_, ?_, ?_, ?_⟩
  · rw [hsame]
    exact updateList_ne_nil _ _
  · rw [hsame, hhyd]
    exact updateList_classRec lowu X S _ _ hB2 hclass_rec
  · rw [hsame, hhyd]
    apply updateList_exists _ _ _ hB3
    right
    intro r hrm hmatch hrlo
    have hcr := hB2 r hrm
    rw [Bool.or_eq_true] at hmatch
    rcases hmatch with hm | hm
    · rw [beq_iff_eq] at hm
      have hm2 : r.persistentId =
          joinResolvedId st sessionId (jsOr u "Anonymous") supplied uuid := hm
      exact hY (hm2 ▸ (hcr.1).1 hrlo)
    · rw [beq_iff_eq] at hm
      have hm2 : r.id = sock := hm
      have hsr := (hcr.2).1 hrlo
      rw [hm2, hS] at hsr
      cases hsr
  · rw [hdbs]
    exact saveStudentDbList_pidX_all sessionId lowu X _ _ hC hCex
      (fun hx => absurd hx hY)
  · rw [hdbs]
    exact saveStudentDbList_pidX_ex sessionId X _ _ hCex
  · intro z hz r hrm
    rw [hother z hz] at hrm
    exact hD z hz r hrm

theorem c3Inv_join_student_other_session (sessionId lowu X : String) (S : String → Bool)
    (st : ServerState) (sock sid u role supplied uuid mN mU ts : String)
    (hq : sid ≠ sessionId) (hrole : jsOr role "student" = "student")
    (hfresh : generateStudentId (jsOr u "Anonymous") sid uuid ≠ X)
    (hsupp : supplied ≠ X)
    (hinv : c3Inv sessionId lowu X S st) :
    c3Inv sessionId lowu X S
      (handleJoinRoom st sock sid u role supplied uuid mN mU ts).1 := by
  obtain ⟨hB1, hB2, hB3, hC, hCex, hD⟩ := hinv
  by_cases hsid : sid = ""
  · rw [handleJoinRoom, if_pos hsid]
    exact ⟨hB1, hB2, hB3, hC, hCex, hD⟩
  · have hY : joinResolvedId st sid (jsOr u "Anonymous") supplied uuid ≠ X := by
      rw [joinResolvedId_eq]
      exact resolve_ne_other _ _ _ _ _ _ X
        (hydrated_pid_ne sessionId lowu X st sid hq hC hD) hfresh hsupp
    have hdbs := handleJoinRoom_student_dbStudents st sock sid u role supplied uuid
      mN mU ts hsid hrole
    have hsame := handleJoinRoom_student_roomStudents st sock sid u role supplied uuid
      mN mU ts hsid hrole
    have hother := fun z (hz : z ≠ sid) =>
      handleJoinRoom_student_roomStudents_other st sock sid u role supplied uuid
        mN mU ts z hsid hrole hz
    refine ⟨?_, ?_, ?_, ?_, ?_, ?_⟩
    · rw [hother sessionId (fun hh => hq hh.symm)]
      exact hB1
    · rw [hother sessionId (fun hh => hq hh.symm)]
      exact hB2
    · rw [hother sessionId (fun hh => hq hh.symm)]
      exact hB3
    · rw [hdbs]
      exact saveStudentDbList_pidX_all sessionId lowu X _ _ hC hCex
        (fun hx => absurd hx hY)
    · rw [hdbs]
      exact saveStudentDbList_pidX_ex sessionId X _ _ hCex
    · intro z hz r hrm
      by_cases hzz : z = sid
      · rw [hzz, hsame] at hrm
        rcases mem_updateList _ _ _ hrm with h | h
        · exact hydrated_pid_ne sessionId lowu X st sid hq hC hD r h
        · rw [h]
          exact hY
      · rw [hother z hzz] at hrm
        exact hD z hz r hrm

theorem c3Inv_ite_pair (sessionId lowu X : String) (S : String → Bool)
    (c : Prop) [Decidable c] (e1 e2 : ServerState × List Emit)
    (h1 : c3Inv sessionId lowu X S e1.1) (h2 : c3Inv sessionId lowu X S e2.1) :
    c3Inv sessionId lowu X S (if c then e1 else e2).1 := by
  split
  · exact h1
  · exact h2

theorem c3Inv_handleSendMessage (sessionId lowu X : String) (S : String → Bool)
    (st : ServerState) (sockId : String) (md : Option SendData)
    (g1 g2 r1 r2 now : String)
    (hinv : c3Inv sessionId lowu X S st) :
    c3Inv sessionId lowu X S (handleSendMessage st sockId md g1 g2 r1 r2 now).1 := by
  cases md with
  | none => exact hinv
  | some d =>
    rw [handleSendMessage]
    dsimp only
    by_cases hsid : d.sessionId = ""
    · rw [if_pos hsid]
      exact hinv
    · rw [if_neg hsid]
      cases hm : d.message with
      | none => exact hinv
      | some p =>
        dsimp only
        apply c3Inv_ite_pair
        · apply c3Inv_ite_pair
          · by_cases hsd : d.studentId ≠ ""
            · rw [if_pos hsd]
              split
              · next s heq =>
                  have hmem : s ∈ roomStudentsOf st d.sessionId :=
                    List.mem_of_find?_eq_some heq
                  exact c3Inv_statusUpdate sessionId lowu X S st _ d.sessionId s
                    { s with lastActive := now, status := "active" }
                    hmem rfl rfl rfl rfl rfl hinv
              · exact hinv
            · rw [if_neg hsd]
              split
              · next s heq =>
                  have hmem : s ∈ roomStudentsOf st d.sessionId :=
                    List.mem_of_find?_eq_some heq
                  exact c3Inv_statusUpdate sessionId lowu X S st _ d.sessionId s
                    { s with lastActive := now, status := "active" }
                    hmem rfl rfl rfl rfl rfl hinv
              · exact hinv
          · exact hinv
        · exact hinv

theorem c3Inv_handleDisconnect (sessionId lowu X : String) (S : String → Bool)
    (st : ServerState) (sockId mN mU ts : String)
    (hinv : c3Inv sessionId lowu X S st) :
    c3Inv sessionId lowu X S (handleDisconnect st sockId mN mU ts).1 := by
  unfold handleDisconnect
  cases hud : alookup st.socketData sockId with
  | none => exact hinv
  | some ud =>
    dsimp only
    by_cases hre : ud.currentRoom = ""
    · rw [if_pos hre]
      exact hinv
    · rw [if_neg hre]
      dsimp only
      split
      · exact hinv
      · split
        · by_cases hpid : ud.persistentId ≠ ""
          · rw [if_pos hpid]
            split
            · next s heq =>
                have hmem : s ∈ roomStudentsOf st ud.currentRoom :=
                  List.mem_of_find?_eq_some heq
                exact c3Inv_statusUpdate sessionId lowu X S st _ ud.currentRoom s
                  { s with status := "offline", lastActive := ts }
                  hmem rfl rfl rfl rfl rfl hinv
            · exact hinv
          · rw [if_neg hpid]
            split
            · next s heq =>
                have hmem : s ∈ roomStudentsOf st ud.currentRoom :=
                  List.mem_of_find?_eq_some heq
                exact c3Inv_statusUpdate sessionId lowu X S st _ ud.currentRoom s
                  { s with status := "offline", lastActive := ts }
                  hmem rfl rfl rfl rfl rfl hinv
            · exact hinv
        · exact hinv

theorem updateList_nil (s : StudentRec) : updateList [] s = [s] := rfl

theorem saveStudentDbList_nil (s : StudentRec) : saveStudentDbList [] s = [s] := rfl

theorem c3Inv_step (sessionId lowu X : String) (S : String → Bool)
    (st : ServerState) (e : SEv)
    (hses : sessionId ≠ "")
    (he : c3AllowedEv sessionId lowu X S e = true)
    (hinv : c3Inv sessionId lowu X S st) :
    c3Inv sessionId lowu X S (stepEv st e).1 := by
  cases e with
  | evJoin sock sid u role supplied uuid mN mU ts =>
    simp only [c3AllowedEv, Bool.or_eq_true, Bool.and_eq_true, beq_iff_eq,
      bne_iff_ne, Bool.not_eq_true', beq_eq_false_iff_ne] at he
    rcases he with hrole | ⟨hrole, hcase⟩
    · exact c3Inv_join_teacher sessionId lowu X S st sock sid u role supplied uuid
        mN mU ts hrole hinv
    · rcases hcase with (⟨⟨hq, hu⟩, hS⟩ | ⟨⟨⟨hq, hu⟩, hS⟩, hfresh⟩) | ⟨⟨hq, hfresh⟩, hsupp⟩
      · subst hq
        exact c3Inv_join_student_lowu sid lowu X S st sock u role supplied uuid
          mN mU ts hses hrole hu hS hinv
      · subst hq
        exact c3Inv_join_student_other_name sid lowu X S st sock u role supplied
          uuid mN mU ts hses hrole hu hS hfresh hinv
      · exact c3Inv_join_student_other_session sessionId lowu X S st sock sid u role
          supplied uuid mN mU ts hq hrole hfresh hsupp hinv
  | evSend sock md g1 g2 r1 r2 t =>
    exact c3Inv_handleSendMessage sessionId lowu X S st sock md g1 g2 r1 r2 t hinv
  | evDisc sock mN mU ts =>
    exact c3Inv_handleDisconnect sessionId lowu X S st sock mN mU ts hinv
  | evLeave q1 q2 q3 q4 q5 q6 q7 =>
    exact absurd he (by simp [c3AllowedEv])

theorem c3Inv_run (sessionId lowu X : String) (S : String → Bool)
    (st : ServerState) (tr : List SEv)
    (hses : sessionId ≠ "")
    (hall : tr.all (c3AllowedEv sessionId lowu X S) = true)
    (hinv : c3Inv sessionId lowu X S st) :
    c3Inv sessionId lowu X S (runEvs st tr) := by
  induction tr generalizing st with
  | nil => exact hinv
  | cons e tl ih =>
    rw [List.all_cons, Bool.and_eq_true] at hall
    show c3Inv sessionId lowu X S (runEvs (stepEv st e).1 tl)
    exact ih (stepEv st e).1 hall.2 (c3Inv_step sessionId lowu X S st e hses hall.1 hinv)

theorem c3Inv_first_join (sessionId u1 role1 uuid1 sock1 mN1 mU1 ts1 : String)
    (S : String → Bool)
    (hsid : sessionId ≠ "") (hrole : jsOr role1 "student" = "student")
    (hS1 : S sock1 = true) :
    c3Inv sessionId (toLowerStr (jsOr u1 "Anonymous"))
      (generateStudentId (jsOr u1 "Anonymous") sessionId uuid1) S
      (handleJoinRoom initState sock1 sessionId u1 role1 "" uuid1 mN1 mU1 ts1).1 := by
  have hrs := handleJoinRoom_student_roomStudents initState sock1 sessionId u1 role1 ""
    uuid1 mN1 mU1 ts1 hsid hrole
  have hdb := handleJoinRoom_student_dbStudents initState sock1 sessionId u1 role1 ""
    uuid1 mN1 mU1 ts1 hsid hrole
  rw [joinResolvedId_initState] at hrs hdb
  have h0 : hydratedStudents initState sessionId = [] := rfl
  rw [h0, updateList_nil] at hrs
  have h1 : initState.dbStudents = [] := rfl
  rw [h1, saveStudentDbList_nil] at hdb
  refine ⟨?_, ?_, ?_, ?_, ?_, ?_⟩
  · rw [hrs]
    exact List.cons_ne_nil _ _
  · rw [hrs]
    intro r hr
    rw [List.mem_singleton] at hr
    subst hr
    exact ⟨⟨fun _ => rfl, fun _ => rfl⟩, ⟨fun _ => hS1, fun _ => rfl⟩⟩
  · rw [hrs]
    exact ⟨_, List.mem_singleton.2 rfl, rfl⟩
  · rw [hdb]
    intro r hr _hx
    rw [List.mem_singleton] at hr
    subst hr
    exact ⟨rfl, rfl⟩
  · rw [hdb]
    exact ⟨_, List.mem_singleton.2 rfl, rfl, rfl⟩
  · intro z hz r hrm
    rw [handleJoinRoom_student_roomStudents_other initState sock1 sessionId u1 role1 ""
      uuid1 mN1 mU1 ts1 z hsid hrole hz] at hrm
    have hz0 : roomStudentsOf initState z = [] := rfl
    rw [hz0] at hrm
    exact absurd hrm (List.not_mem_nil r)

/-- On top of `exSt2`, Bob joining on Ana’s still-cached socket id `"a1"`
overwrites her roster record (`updateStudentInCache` also matches on the
socket id), so her rejoin resolves to a freshly generated id: stability
genuinely needs every later event to carry a connection id of its own. -/
theorem socket_reuse_breaks_identity :
    joinResolvedId reuseSt "12345" "ana" "" "u9" = "12345_ana_u9"
    ∧ ("12345_ana_u9" : String) ≠ "12345_ana_u1" := by
  refine ⟨?_, ?_⟩ <;> decide

/-- C3 (amended): after a student first joins an empty server with no
supplied id, every later `join_room` with the same session, a
case-insensitively equal username and no supplied id resolves to the id
generated at the first join, across any number of sends, disconnects,
teacher joins, this student’s own rejoins, other students’ joins to this
or other sessions — but not `leave_room`s, which evict the cached record.
`S` delimits the connection ids of this student’s own sockets; the side
conditions state only what the transport and the id generator guarantee:
Socket.IO never reuses a live connection id for another client, and the
uuid-suffixed ids generated for other joins never collide with this
student’s id (nor does an id supplied in another session). -/
theorem c3_amended_theorem (sessionId u1 role1 uuid1 sock1 mN1 mU1 ts1 u2 uuid2 : String)
    (S : String → Bool) (tr : List SEv)
    (hsid : sessionId ≠ "")
    (hrole : jsOr role1 "student" = "student")
    (hS1 : S sock1 = true)
    (hall : tr.all (c3AllowedEv sessionId (toLowerStr (jsOr u1 "Anonymous"))
      (generateStudentId (jsOr u1 "Anonymous") sessionId uuid1) S) = true)
    (hu2 : toLowerStr (jsOr u2 "Anonymous") = toLowerStr (jsOr u1 "Anonymous")) :
    joinResolvedId
      (runEvs (handleJoinRoom initState sock1 sessionId u1 role1 "" uuid1 mN1 mU1 ts1).1 tr)
      sessionId (jsOr u2 "Anonymous") "" uuid2 =
      generateStudentId (jsOr u1 "Anonymous") sessionId uuid1 := by
  have hinv := c3Inv_run sessionId (toLowerStr (jsOr u1 "Anonymous"))
    (generateStudentId (jsOr u1 "Anonymous") sessionId uuid1) S
    (handleJoinRoom initState sock1 sessionId u1 role1 "" uuid1 mN1 mU1 ts1).1 tr
    hsid hall
    (c3Inv_first_join sessionId u1 role1 uuid1 sock1 mN1 mU1 ts1 S hsid hrole hS1)
  obtain ⟨hB1, hB2, hB3, _, _, _⟩ := hinv
  rw [joinResolvedId_eq, hydratedStudents, if_pos hB1]
  exact resolve_lowu _ _ _ _ _ _ _ _ S hB2 hB3 hu2

/-- C3, witness: Ana joins `"12345"` on an empty server; then Bob joins and
sends a message, Ana disconnects, the teacher joins, Zed joins another
session, and Ana rejoins as `"ANA"` on a new socket; the amended theorem
resolves her back to the original generated id. -/
theorem c3_witness :
    ("12345" : String) ≠ ""
    ∧ jsOr "student" "student" = "student"
    ∧ (fun s => s == "a1" || s == "a2") "a1" = true
    ∧ ([SEv.evJoin "b1" "12345" "Bob" "" "" "u2" "102" "mC" "TC",
        SEv.evSend "b1" (some bobSend) "500" "x1" "501" "x2" "TD",
        SEv.evDisc "a1" "103" "mD" "TE",
        SEv.evJoin "t1" "12345" "MrT" "teacher" "" "u0" "104" "mE" "TF",
        SEv.evJoin "c1" "99999" "Zed" "" "" "u5" "105" "mF" "TG",
        SEv.evJoin "a2" "12345" "ANA" "" "" "u9" "106" "mG" "TH"]).all
        (c3AllowedEv "12345" (toLowerStr (jsOr "Ana" "Anonymous"))
          (generateStudentId (jsOr "Ana" "Anonymous") "12345" "u1")
          (fun s => s == "a1" || s == "a2")) = true
    ∧ toLowerStr (jsOr "ANA" "Anonymous") = toLowerStr (jsOr "Ana" "Anonymous")
    ∧ joinResolvedId
        (runEvs (handleJoinRoom initState "a1" "12345" "Ana" "student" "" "u1" "101" "mB" "TB").1
          [SEv.evJoin "b1" "12345" "Bob" "" "" "u2" "102" "mC" "TC",
           SEv.evSend "b1" (some bobSend) "500" "x1" "501" "x2" "TD",
           SEv.evDisc "a1" "103" "mD" "TE",
           SEv.evJoin "t1" "12345" "MrT" "teacher" "" "u0" "104" "mE" "TF",
           SEv.evJoin "c1" "99999" "Zed" "" "" "u5" "105" "mF" "TG",
           SEv.evJoin "a2" "12345" "ANA" "" "" "u9" "106" "mG" "TH"])
        "12345" (jsOr "ANA" "Anonymous") "" "u9" =
        generateStudentId (jsOr "Ana" "Anonymous") "12345" "u1" :=
  ⟨by decide, by decide, by decide, by decide, by decide,
    c3_amended_theorem "12345" "Ana" "student" "u1" "a1" "101" "mB" "TB" "ANA" "u9"
      (fun s => s == "a1" || s == "a2")
      [SEv.evJoin "b1" "12345" "Bob" "" "" "u2" "102" "mC" "TC",
       SEv.evSend "b1" (some bobSend) "500" "x1" "501" "x2" "TD",
       SEv.evDisc "a1" "103" "mD" "TE",
       SEv.evJoin "t1" "12345" "MrT" "teacher" "" "u0" "104" "mE" "TF",
       SEv.evJoin "c1" "99999" "Zed" "" "" "u5" "105" "mF" "TG",
       SEv.evJoin "a2" "12345" "ANA" "" "" "u9" "106" "mG" "TH"]
      (by decide) (by decide) (by decide) (by decide) (by decide)⟩

end InSchool
